import Mathlib

/-!
Verification of the landmark-to-rig retargeting code of the
`graphics_final` repository (pose-mirror skeleton renderer, webTest
character/model viewers, and the pose broadcast relay).

All numeric values are modelled over `ℚ` (exact arithmetic idealisation of
JS doubles).  Square roots never have to be materialised: lengths are
carried as their squares (`mesh.scale.y` is stored via its square, which
determines it since scales here are nonnegative), orientation quaternions
are carried via the exact rational data that determines them (the
un-normalised direction delta, see `quatFromDelta`), and theorems about
normalised directions quantify over a rational witness `L` of the length
(`L * L = normSq d`, `0 < L`).
-/

namespace GraphicsFinal

/-- Three-component vector with rational coordinates (models THREE.Vector3). -/
structure Vec3 where
  x : ℚ
  y : ℚ
  z : ℚ
  deriving DecidableEq, Repr

/-- Componentwise addition, as THREE.Vector3.add. -/
def Vec3.add (a b : Vec3) : Vec3 := ⟨a.x + b.x, a.y + b.y, a.z + b.z⟩

/-- Componentwise subtraction, as THREE.Vector3.subVectors. -/
def Vec3.sub (a b : Vec3) : Vec3 := ⟨a.x - b.x, a.y - b.y, a.z - b.z⟩

/-- Scalar multiple, as THREE.Vector3.multiplyScalar. -/
def Vec3.smul (c : ℚ) (a : Vec3) : Vec3 := ⟨c * a.x, c * a.y, c * a.z⟩

/-- Dot product. -/
def Vec3.dot (a b : Vec3) : ℚ := a.x * b.x + a.y * b.y + a.z * b.z

/-- Cross product, as THREE.Vector3.crossVectors. -/
def Vec3.cross (a b : Vec3) : Vec3 :=
  ⟨a.y * b.z - a.z * b.y, a.z * b.x - a.x * b.z, a.x * b.y - a.y * b.x⟩

/-- Squared euclidean norm; the code's `length` is its square root. -/
def Vec3.normSq (a : Vec3) : ℚ := a.x * a.x + a.y * a.y + a.z * a.z

/-- Midpoint of two points, as `lerp(a, b, 0.5)` / the explicit midpoint
formulas in skeletonRenderer.js lines 161-163. -/
def Vec3.midpoint (a b : Vec3) : Vec3 := Vec3.smul (1/2) (Vec3.add a b)

/-- Quaternion with rational components (models THREE.Quaternion up to the
final normalisation step; rotating by the normalised quaternion is the
`quatRotate` below, which divides by the squared norm instead, see
`quatRotate_smul`). -/
structure Quat where
  x : ℚ
  y : ℚ
  z : ℚ
  w : ℚ
  deriving DecidableEq, Repr

/-- Squared norm of a quaternion. -/
def Quat.normSq (q : Quat) : ℚ := q.x * q.x + q.y * q.y + q.z * q.z + q.w * q.w

/-- Scalar multiple of a quaternion. -/
def Quat.smul (c : ℚ) (q : Quat) : Quat := ⟨c * q.x, c * q.y, c * q.z, c * q.w⟩

/-- Rotation of the vector `v` by the quaternion `q` after normalising `q`:
for unit `u` the action is `v ↦ u v u⁻¹`; for general nonzero `q` the same
rotation is the conjugation divided by `normSq q`, which stays inside ℚ.
(THREE normalises the quaternion before storing it; rotating by the stored
quaternion is exactly this map, see `quatRotate_smul`.) -/
def quatRotateNum (q : Quat) (v : Vec3) : Vec3 :=
  -- numerator of the conjugation formula: (w² - |u|²)v + 2(u·v)u + 2w(u×v)
  let u : Vec3 := ⟨q.x, q.y, q.z⟩
  Vec3.add
    (Vec3.add (Vec3.smul (q.w * q.w - Vec3.normSq u) v)
              (Vec3.smul (2 * Vec3.dot u v) u))
    (Vec3.smul (2 * q.w) (Vec3.cross u v))

def quatRotate (q : Quat) (v : Vec3) : Vec3 :=
  Vec3.smul (1 / Quat.normSq q) (quatRotateNum q v)

/-- JavaScript Number.EPSILON = 2⁻⁵². -/
def numberEpsilon : ℚ := 1 / 2 ^ 52

/-- THREE.Quaternion.setFromUnitVectors (the exact branch structure of the
library routine invoked at skeletonRenderer.js:181, characterViewer.js:297
/ 324 / 341 / 788 and modelViewer.js:223), minus the final `normalize()`
call: the returned quaternion is the pre-normalisation representative,
which determines the stored unit quaternion (normalisation only rescales,
and `quatRotate` is scale-invariant, `quatRotate_smul`). -/
def setFromUnitVectors (vFrom vTo : Vec3) : Quat :=
  let r := Vec3.dot vFrom vTo + 1
  if r < numberEpsilon then
    if |vFrom.x| > |vFrom.z| then
      ⟨-vFrom.y, vFrom.x, 0, 0⟩
    else
      ⟨0, -vFrom.z, vFrom.y, 0⟩
  else
    ⟨vFrom.y * vTo.z - vFrom.z * vTo.y,
     vFrom.z * vTo.x - vFrom.x * vTo.z,
     vFrom.x * vTo.y - vFrom.y * vTo.x,
     r⟩

/-- The canonical cylinder axis of the rigs: +Y. -/
def yAxis : Vec3 := ⟨0, 1, 0⟩

/-- Rotating by a nonzero scalar multiple of `q` is rotating by `q`;
hence rotating by the normalised quaternion (`q` scaled by `1/‖q‖`) is
`quatRotate q`. -/
theorem quatRotateNum_smul (c : ℚ) (q : Quat) (v : Vec3) :
    quatRotateNum (Quat.smul c q) v = Vec3.smul (c * c) (quatRotateNum q v) := by
  simp only [quatRotateNum, Quat.smul, Quat.normSq, Vec3.normSq, Vec3.smul,
    Vec3.add, Vec3.dot, Vec3.cross]
  rw [Vec3.mk.injEq]
  refine ⟨by ring, by ring, by ring⟩

theorem quatNormSq_smul (c : ℚ) (q : Quat) :
    Quat.normSq (Quat.smul c q) = c * c * Quat.normSq q := by
  simp only [Quat.normSq, Quat.smul]; ring

theorem quatRotate_smul (c : ℚ) (q : Quat) (v : Vec3) (hc : c ≠ 0) :
    quatRotate (Quat.smul c q) v = quatRotate q v := by
  have h2 : (c * c : ℚ) ≠ 0 := mul_ne_zero hc hc
  have haux : ∀ m N : ℚ, 1 / (c * c * N) * (c * c * m) = 1 / N * m := by
    intro m N
    calc 1 / (c * c * N) * (c * c * m) = c * c * m / (c * c * N) := by
          rw [one_div, div_eq_mul_inv]; ring
      _ = m / N := mul_div_mul_left m N h2
      _ = 1 / N * m := by rw [one_div, div_eq_mul_inv]; ring
  rw [quatRotate, quatRotate, quatRotateNum_smul, quatNormSq_smul]
  simp only [Vec3.smul]
  rw [Vec3.mk.injEq]
  exact ⟨haux _ _, haux _ _, haux _ _⟩

/-! ## Landmarks -/

/-- One landmark as consumed by the renderers: position plus a visibility
(confidence) scalar.  (The exporter-side raw landmark, whose visibility may
be absent, is `RawLandmark` below.) -/
structure Landmark where
  x : ℚ
  y : ℚ
  z : ℚ
  visibility : ℚ
  deriving DecidableEq, Repr

/-- Uniform translation of a landmark position (visibility untouched);
used to state translation-invariance. -/
def Landmark.translate (t : Vec3) (lm : Landmark) : Landmark :=
  { lm with x := lm.x + t.x, y := lm.y + t.y, z := lm.z + t.z }

/-! ## SkeletonRenderer (pose-mirror/src/skeletonRenderer.js) -/

/-- Normalized-space conversion of skeletonRenderer.updatePose lines
143-145: x = (x - 0.5) * 2, y = (0.5 - y) * 2, z = -z * 2. -/
def convertLandmark (lm : Landmark) : Vec3 :=
  ⟨(lm.x - 1/2) * 2, (1/2 - lm.y) * 2, -lm.z * 2⟩

/-- State of one joint sphere: position and the `visible` flag. -/
structure JointState where
  pos : Vec3
  visible : Bool
  deriving DecidableEq, Repr

/-- State of one bone cylinder.  `scaleYSq` stores the square of
`mesh.scale.y` (the scale is nonnegative so the square determines it);
`delta` stores the endpoint difference vector that determines the stored
orientation quaternion, via `quatFromDelta` (the stored quaternion is
`setFromUnitVectors yAxis (delta normalised)`). -/
structure BoneState where
  startIdx : Nat
  endIdx : Nat
  pos : Vec3
  scaleYSq : ℚ
  delta : Vec3
  visible : Bool
  deriving DecidableEq, Repr

/-- Mutable fields of the SkeletonRenderer instance that updatePose reads
or writes. -/
structure SkeletonState where
  joints : List JointState
  bones : List BoneState
  scale : ℚ
  showJoints : Bool
  showBones : Bool
  deriving DecidableEq, Repr

/-- The visibility threshold of skeletonRenderer.js line 140 (0.3). -/
def srThreshold : ℚ := 3/10

/-- One step of the joints.forEach loop of updatePose (lines 139-152):
joint `i` gets the converted, globally scaled position and visibility flag
when the landmark exists and its visibility exceeds 0.3; otherwise only
its visibility is cleared. -/
def jointUpdateSR (scale : ℚ) (showJoints : Bool) (lms : List Landmark)
    (i : Nat) (j : JointState) : JointState :=
  match lms.get? i with
  | some lm =>
      if srThreshold < lm.visibility then
        ⟨Vec3.smul scale (convertLandmark lm), showJoints⟩
      else
        ⟨j.pos, false⟩
  | none => ⟨j.pos, false⟩

/-- The joints.forEach loop, carrying the running index. -/
def updateJoints (scale : ℚ) (showJoints : Bool) (lms : List Landmark) :
    Nat → List JointState → List JointState
  | _, [] => []
  | i, j :: rest =>
      jointUpdateSR scale showJoints lms i j ::
        updateJoints scale showJoints lms (i + 1) rest

/-- One step of the bones.forEach loop of updatePose (lines 155-189).
When both endpoint joints are visible the mesh position becomes the
midpoint (set before the degeneracy test, as in the source); when
additionally the length is positive, scale.y becomes the length
(stored squared) and the quaternion becomes
`setFromUnitVectors yAxis (delta normalised)` (stored via `delta`),
with `visible := showBones`; otherwise the bone is hidden. -/
def boneUpdateSR (showBones : Bool) (joints : List JointState)
    (b : BoneState) : BoneState :=
  match joints.get? b.startIdx, joints.get? b.endIdx with
  | some sj, some ej =>
      if sj.visible && ej.visible then
        let mid := Vec3.midpoint sj.pos ej.pos
        let d := Vec3.sub ej.pos sj.pos
        if 0 < Vec3.normSq d then
          { b with pos := mid, scaleYSq := Vec3.normSq d, delta := d,
                   visible := showBones }
        else
          { b with pos := mid, visible := false }
      else
        { b with visible := false }
  | _, _ => b  -- unreachable for states built by createSkeleton (indices < 33)

/-- SkeletonRenderer.updatePose (lines 133-190).  `none` models a missing
(null/undefined) landmarks argument.  The guard of line 134 rejects any
count other than 33 and leaves the whole state untouched. -/
def updatePose (s : SkeletonState) (landmarks : Option (List Landmark)) :
    SkeletonState :=
  match landmarks with
  | none => s
  | some lms =>
      if lms.length ≠ 33 then s
      else
        let joints := updateJoints s.scale s.showJoints lms 0 s.joints
        { s with joints := joints,
                 bones := s.bones.map (boneUpdateSR s.showBones joints) }

/-- The bone connection list of createSkeleton (lines 102-117). -/
def srConnections : List (Nat × Nat) :=
  [(0, 2), (0, 5),
   (11, 12),
   (11, 23), (12, 24),
   (23, 24),
   (11, 13), (13, 15),
   (12, 14), (14, 16),
   (23, 25), (25, 27), (27, 29), (27, 31),
   (24, 26), (26, 28), (28, 30), (28, 32)]

/-- The quaternion actually stored for a bone whose endpoint difference is
`d`, given a witness `L` of the length of `d`: the code normalises `d`
and calls setFromUnitVectors on the +Y axis and the unit direction. -/
def quatFromDelta (d : Vec3) (L : ℚ) : Quat :=
  setFromUnitVectors yAxis ⟨d.x / L, d.y / L, d.z / L⟩

/-! ## CharacterPoseViewer (webTest/characterViewer.js) -/

/-- World-space branch of the getPos helper (characterViewer.js lines
262-264 and 740-741): mirrored x and z, y inverted and lifted by 1.5. -/
def cvConvertWorld (lm : Landmark) : Vec3 :=
  ⟨-lm.x, -lm.y + 3/2, -lm.z⟩

/-- Normalized-space branch of the getPos helper (characterViewer.js lines
266-270 and 743-747): note the vertical offset 1.5 is added here as well. -/
def cvConvertNorm (lm : Landmark) : Vec3 :=
  ⟨(lm.x - 1/2) * 2, -(lm.y - 1/2) * 2 + 3/2, -lm.z * 2⟩

/-- The getPos closure: select the branch on the world-coordinate flag.
Out-of-range access is unreachable behind the length guard (indices used
are ≤ 28 and the guard requires at least 33 entries). -/
def getPosCV (world : Bool) (lms : List Landmark) (i : Nat) : Vec3 :=
  match lms.get? i with
  | some lm => if world then cvConvertWorld lm else cvConvertNorm lm
  | none => ⟨0, 0, 0⟩

/-- Visibility of landmark `i` (0 when absent; absence is unreachable
behind the length guard). -/
def visAt (lms : List Landmark) (i : Nat) : ℚ :=
  ((lms.get? i).map Landmark.visibility).getD 0

/-- State of one mesh of the procedural character.  `quatFrom` stores the
pair (canonical axis, un-normalised direction delta) that determines the
mesh quaternion: the stored quaternion is `setFromUnitVectors axis d̂`
(identity, i.e. `none`, before the first pose update); `scaleYSq` stores
the square of mesh.scale.y. -/
structure MeshState where
  pos : Vec3
  quatFrom : Option (Vec3 × Vec3)
  scaleYSq : ℚ
  deriving DecidableEq, Repr

/-- Dictionary access on the `this.bones` map. -/
def getBone : List (String × MeshState) → String → Option MeshState
  | [], _ => none
  | e :: rest, k => if e.1 = k then some e.2 else getBone rest k

/-- Guarded mutation `if (this.bones[k]) { mutate }`: update the entry
when present, no-op when absent. -/
def updateIfPresent (bones : List (String × MeshState)) (k : String)
    (f : MeshState → MeshState) : List (String × MeshState) :=
  bones.map fun e => if e.1 = k then (e.1, f e.2) else e

/-- The four meshes created by createLimb (lines 194-234): upper limb at
start − len/2·ŷ, joint at start − len·ŷ, lower at start − 1.5·len·ŷ, end
at start − 2·len·ŷ. -/
def limbBones (name : String) (sp : Vec3) (len : ℚ) :
    List (String × MeshState) :=
  [(name ++ "Upper", ⟨⟨sp.x, sp.y - len / 2, sp.z⟩, none, 1⟩),
   (name ++ "Joint", ⟨⟨sp.x, sp.y - len, sp.z⟩, none, 1⟩),
   (name ++ "Lower", ⟨⟨sp.x, sp.y - len * (3/2), sp.z⟩, none, 1⟩),
   (name ++ "End", ⟨⟨sp.x, sp.y - len * 2, sp.z⟩, none, 1⟩)]

/-- The bones dictionary built by createProceduralCharacter (lines
139-192). -/
def proceduralBones : List (String × MeshState) :=
  [("head", ⟨⟨0, 3/2, 0⟩, none, 1⟩),
   ("torso", ⟨⟨0, 11/10, 0⟩, none, 1⟩),
   ("hips", ⟨⟨0, 3/4, 0⟩, none, 1⟩)] ++
  limbBones ("leftArm") ⟨-1/4, 13/10, 0⟩ (2/5) ++
  limbBones ("rightArm") ⟨1/4, 13/10, 0⟩ (2/5) ++
  limbBones ("leftLeg") ⟨-3/20, 13/20, 0⟩ (1/2) ++
  limbBones ("rightLeg") ⟨3/20, 13/20, 0⟩ (1/2)

/-- CharacterPoseViewer.updateLimb (lines 313-351): rest length is the
hardcoded 0.4 for all four limbs (even the legs, whose created length is
0.5); limb quaternions align the −Y axis. -/
def updateLimbCV (bones : List (String × MeshState)) (name : String)
    (si mi ei : Nat) (getP : Nat → Vec3) : List (String × MeshState) :=
  let strt := getP si
  let mid := getP mi
  let ed := getP ei
  let du := Vec3.sub mid strt
  let dl := Vec3.sub ed mid
  let b1 := updateIfPresent bones (name ++ "Upper") fun m =>
    { m with pos := Vec3.midpoint strt mid,
             quatFrom := some (⟨0, -1, 0⟩, du),
             scaleYSq := Vec3.normSq du / ((2/5) * (2/5)) }
  let b2 := updateIfPresent b1 (name ++ "Joint") fun m => { m with pos := mid }
  let b3 := updateIfPresent b2 (name ++ "Lower") fun m =>
    { m with pos := Vec3.midpoint mid ed,
             quatFrom := some (⟨0, -1, 0⟩, dl),
             scaleYSq := Vec3.normSq dl / ((2/5) * (2/5)) }
  updateIfPresent b3 (name ++ "End") fun m => { m with pos := ed }

/-- The procedural-model branch of updateCharacterFromPose (lines
283-310). The torso direction is computed after `shoulderCenter` has been
mutated by `lerp` into the torso midpoint (aliasing in the source), so the
recorded delta is `torsoPos − hipCenter`. -/
def proceduralUpdateCV (bones : List (String × MeshState))
    (lms : List Landmark) (world : Bool) : List (String × MeshState) :=
  let getP := getPosCV world lms
  let b1 := if 1/2 < visAt lms 0 then
      updateIfPresent bones ("head") (fun m => { m with pos := getP 0 })
    else bones
  let sc := Vec3.midpoint (getP 11) (getP 12)
  let hc := Vec3.midpoint (getP 23) (getP 24)
  let torsoPos := Vec3.midpoint sc hc
  let b2 := updateIfPresent b1 ("torso") fun m =>
    { m with pos := torsoPos,
             quatFrom := some (yAxis, Vec3.sub torsoPos hc) }
  let b3 := updateIfPresent b2 ("hips") fun m =>
    { m with pos := Vec3.midpoint (getP 23) (getP 24) }
  let b4 := updateLimbCV b3 ("leftArm") 11 13 15 getP
  let b5 := updateLimbCV b4 ("rightArm") 12 14 16 getP
  let b6 := updateLimbCV b5 ("leftLeg") 23 25 27 getP
  updateLimbCV b6 ("rightLeg") 24 26 28 getP

/-! ### GLTF bone-role matching (findGLTFBones, lines 545-620) -/

/-- A traversed object of the loaded GLTF scene. -/
structure GltfObject where
  name : String
  isBone : Bool
  isObject3D : Bool
  deriving DecidableEq, Repr

/-- The fifteen bone roles, keys of the commonBoneNames table in source
order (lines 560-576). -/
inductive Role where
  | head | spine | hips
  | leftShoulder | rightShoulder
  | leftElbow | rightElbow
  | leftWrist | rightWrist
  | leftHip | rightHip
  | leftKnee | rightKnee
  | leftAnkle | rightAnkle
  deriving DecidableEq, Repr

/-- Key order of the commonBoneNames table. -/
def roleList : List Role :=
  [Role.head, Role.spine, Role.hips,
   Role.leftShoulder, Role.rightShoulder,
   Role.leftElbow, Role.rightElbow,
   Role.leftWrist, Role.rightWrist,
   Role.leftHip, Role.rightHip,
   Role.leftKnee, Role.rightKnee,
   Role.leftAnkle, Role.rightAnkle]

/-- The alias spellings of each role (commonBoneNames, lines 560-576). -/
def aliasesOf : Role → List String
  | Role.head => ["head", "Head", "HEAD", "neck", "Neck", "cranium", "mixamorigHead", "mixamorigNeck"]
  | Role.spine => ["spine", "Spine", "SPINE", "torso", "Torso", "chest", "Chest", "back", "mixamorigSpine", "mixamorigSpine1", "mixamorigSpine2"]
  | Role.hips => ["hips", "Hips", "HIPS", "pelvis", "Pelvis", "root", "mixamorigHips"]
  | Role.leftShoulder => ["LeftShoulder", "L_Shoulder", "shoulder.L", "LeftArm", "shoulder_L", "upperarm_l", "mixamorigLeftShoulder", "mixamorigLeftArm"]
  | Role.rightShoulder => ["RightShoulder", "R_Shoulder", "shoulder.R", "RightArm", "shoulder_R", "upperarm_r", "mixamorigRightShoulder", "mixamorigRightArm"]
  | Role.leftElbow => ["LeftElbow", "L_Elbow", "elbow.L", "LeftForeArm", "forearm_l", "lowerarm_l", "mixamorigLeftForeArm"]
  | Role.rightElbow => ["RightElbow", "R_Elbow", "elbow.R", "RightForeArm", "forearm_r", "lowerarm_r", "mixamorigRightForeArm"]
  | Role.leftWrist => ["LeftHand", "L_Hand", "hand.L", "LeftWrist", "hand_l", "mixamorigLeftHand"]
  | Role.rightWrist => ["RightHand", "R_Hand", "hand.R", "RightWrist", "hand_r", "mixamorigRightHand"]
  | Role.leftHip => ["LeftHip", "L_Hip", "hip.L", "LeftUpLeg", "thigh_l", "upperleg_l", "mixamorigLeftUpLeg"]
  | Role.rightHip => ["RightHip", "R_Hip", "hip.R", "RightUpLeg", "thigh_r", "upperleg_r", "mixamorigRightUpLeg"]
  | Role.leftKnee => ["LeftKnee", "L_Knee", "knee.L", "LeftLeg", "shin_l", "lowerleg_l", "calf_l", "mixamorigLeftLeg"]
  | Role.rightKnee => ["RightKnee", "R_Knee", "knee.R", "RightLeg", "shin_r", "lowerleg_r", "calf_r", "mixamorigRightLeg"]
  | Role.leftAnkle => ["LeftAnkle", "L_Ankle", "ankle.L", "LeftFoot", "foot_l", "mixamorigLeftFoot"]
  | Role.rightAnkle => ["RightAnkle", "R_Ankle", "ankle.R", "RightFoot", "foot_r", "mixamorigRightFoot"]

/-- The commonBoneNames table as an ordered association list. -/
def commonBoneNames : List (Role × List String) :=
  roleList.map fun r => (r, aliasesOf r)

/-- Lowercased character list of a string (JS toLowerCase, ASCII). -/
def toLowerChars (s : String) : List Char := s.toList.map Char.toLower

/-- Boolean contiguous-sublist test (JS String.includes). -/
def isSubstrList (needle hay : List Char) : Bool :=
  (List.range (hay.length + 1)).any fun i => needle.isPrefixOf (hay.drop i)

/-- Case-insensitive substring test of line 588:
name.toLowerCase().includes(alias.toLowerCase()). -/
def containsCI (name a : String) : Bool :=
  isSubstrList (toLowerChars a) (toLowerChars name)

/-- Does a bone name match any alias of the given list (the inner alias
loop of lines 587-594; the early `break` does not change the outcome). -/
def nameMatches (name : String) (aliases : List String) : Bool :=
  aliases.any fun a => containsCI name a

/-- One iteration of the `for ([key, aliases] of Object.entries(...))`
loop: claim the role for this object when the name matches and the role is
still unclaimed. -/
def claimRole (obj : GltfObject) (m : Role → Option GltfObject)
    (entry : Role × List String) : Role → Option GltfObject :=
  if nameMatches obj.name entry.2 && (m entry.1).isNone then
    Function.update m entry.1 (some obj)
  else m

/-- CharacterPoseViewer.findGLTFBones (lines 578-598): traverse the
objects in order; for each object passing the isBone/isObject3D guard, try
to claim every role of the table. -/
def findGLTFBones (objects : List GltfObject) : Role → Option GltfObject :=
  objects.foldl
    (fun m obj =>
      if obj.isBone || obj.isObject3D then
        commonBoneNames.foldl (claimRole obj) m
      else m)
    (fun _ => none)

/-- Object.keys(this.gltfBones).length: the number of claimed roles. -/
def matchedCount (m : Role → Option GltfObject) : Nat :=
  (roleList.filter fun r => (m r).isSome).length

/-! ### Model loading and the GLTF update path -/

/-- The model-type selector values. -/
inductive ModelType where
  | humanoid | robot | stickman | custom
  deriving DecidableEq, Repr

/-- Mutable fields of the CharacterPoseViewer that the pose-update and
model-load paths touch.  `gltfRotations` records the bone-rotation writes
performed by the latest GLTF update (role, direction delta; the canonical
axis there is +Y), i.e. the observable mutation trace of lines 774-833. -/
structure ViewerState where
  modelType : ModelType
  loadedGLTFModel : Option (List GltfObject)
  gltfBones : Role → Option GltfObject
  bones : List (String × MeshState)
  characterModelPos : Vec3
  gltfRotations : List (Role × Vec3)

/-- The constructor state (fields as set by init/createProceduralCharacter). -/
def initViewerState : ViewerState :=
  { modelType := ModelType.humanoid,
    loadedGLTFModel := none,
    gltfBones := fun _ => none,
    bones := proceduralBones,
    characterModelPos := ⟨0, 0, 0⟩,
    gltfRotations := [] }

/-- Outcome of the asynchronous GLTF load. -/
inductive GLTFLoadOutcome where
  | success (objects : List GltfObject)
  | failure

/-- CharacterPoseViewer.loadGLTFModel (lines 455-543).  Both callbacks run
after the old model and bone maps were cleared (lines 459-463).  On
success the model type becomes custom and bone roles are matched; on error
the procedural character is rebuilt (lines 538-540) — note the error path
resets neither modelType nor loadedGLTFModel. -/
def loadGLTFModel (s : ViewerState) (o : GLTFLoadOutcome) : ViewerState :=
  let s0 := { s with bones := [], gltfBones := fun _ => none }
  match o with
  | GLTFLoadOutcome.success objects =>
      { s0 with modelType := ModelType.custom,
                loadedGLTFModel := some objects,
                gltfBones := findGLTFBones objects }
  | GLTFLoadOutcome.failure =>
      { s0 with bones := proceduralBones }

/-- One setLimbRotation call (lines 774-792): writes the bone quaternion
only when the bone is present and the segment length exceeds 0.01. -/
def limbRotationCall (m : Role → Option GltfObject) (r : Role)
    (sp ep : Vec3) : List (Role × Vec3) :=
  match m r with
  | some _ =>
      if 1/10000 < Vec3.normSq (Vec3.sub ep sp) then [(r, Vec3.sub ep sp)]
      else []
  | none => []

/-- The sequence of guarded setLimbRotation calls of lines 794-833, in
program order. -/
def rotationActions (m : Role → Option GltfObject) (getP : Nat → Vec3)
    (hipCenter : Vec3) : List (Role × Vec3) :=
  limbRotationCall m Role.head (Vec3.midpoint (getP 11) (getP 12)) (getP 0) ++
  limbRotationCall m Role.spine hipCenter (Vec3.midpoint (getP 11) (getP 12)) ++
  limbRotationCall m Role.leftShoulder (getP 11) (getP 13) ++
  limbRotationCall m Role.leftElbow (getP 13) (getP 15) ++
  limbRotationCall m Role.rightShoulder (getP 12) (getP 14) ++
  limbRotationCall m Role.rightElbow (getP 14) (getP 16) ++
  limbRotationCall m Role.leftHip (getP 23) (getP 25) ++
  limbRotationCall m Role.leftKnee (getP 25) (getP 27) ++
  limbRotationCall m Role.rightHip (getP 24) (getP 26) ++
  limbRotationCall m Role.rightKnee (getP 26) (getP 28)

/-- CharacterPoseViewer.updateGLTFModelFromPose (lines 736-837): position
the whole model at the hip centre (lowered by 1), then either apply the
bone rotations (some bone matched) or emit the unrigged-model warning
(returned Bool). -/
def updateGLTFModelFromPose (s : ViewerState) (lms : List Landmark)
    (world : Bool) : ViewerState × Bool :=
  let getP := getPosCV world lms
  let hipCenter := Vec3.midpoint (getP 23) (getP 24)
  let s1 := { s with characterModelPos :=
                ⟨hipCenter.x, hipCenter.y - 1, hipCenter.z⟩ }
  if 0 < matchedCount s.gltfBones then
    ({ s1 with gltfRotations := rotationActions s.gltfBones getP hipCenter },
     false)
  else
    (s1, true)

/-- A received pose entry (poses[i] of the relay payload). -/
structure PoseCV where
  landmarks : List Landmark
  worldLandmarks : List Landmark
  deriving DecidableEq, Repr

/-- The received payload as consumed by updateCharacterFromPose. -/
structure PoseDataCV where
  poses : List PoseCV
  deriving DecidableEq, Repr

/-- CharacterPoseViewer.updateCharacterFromPose (lines 246-311).  Returns
the new state and whether the unrigged-model warning fired.  The guard of
line 252 only rejects counts below 33. -/
def updateCharacterFromPose (s : ViewerState) (pd : PoseDataCV) :
    ViewerState × Bool :=
  match pd.poses with
  | [] => (s, false)
  | pose :: _ =>
      let world := 0 < pose.worldLandmarks.length
      let lms := if world then pose.worldLandmarks else pose.landmarks
      if lms.length < 33 then (s, false)
      else if s.modelType = ModelType.custom ∧ s.loadedGLTFModel.isSome then
        updateGLTFModelFromPose s lms world
      else
        ({ s with bones := proceduralUpdateCV s.bones lms world }, false)

/-! ## PoseModelViewer (webTest/modelViewer.js) -/

/-- Coordinate conversion of updateVisualization (lines 156-168): world
branch mirrors all three axes, normalized branch centres x/y and flips
depth with depthScale 1. -/
def mvConvert (world : Bool) (lm : Landmark) : Vec3 :=
  if world then ⟨-lm.x, -lm.y, -lm.z⟩
  else ⟨(lm.x - 1/2) * 2, -(lm.y - 1/2) * 2, -lm.z⟩

/-- State of one joint sphere of the model viewer: position (converted
point lifted by 1 in y, line 170), visibility (> 0.5 threshold, line 171)
and the hue argument of the setHSL call of line 176. -/
structure SphereState where
  pos : Vec3
  visible : Bool
  hue : ℚ
  deriving DecidableEq, Repr

/-- Update of sphere `i` by the landmarks.forEach loop of lines 152-178:
when landmark `i` exists the sphere gets the converted position lifted by
1 in y, the visibility flag `visibility > 0.5`, and the hue argument of
the setHSL call; otherwise it is kept. -/
def mvSphereAt (world : Bool) (lms : List Landmark) (i : Nat)
    (sp : SphereState) : SphereState :=
  match lms.get? i with
  | some lm =>
      let c := mvConvert world lm
      ⟨⟨c.x, c.y + 1, c.z⟩, decide (1/2 < lm.visibility),
       lm.visibility * 120 / 360⟩
  | none => sp

/-- The landmarks.forEach loop over the sphere array, carrying the index. -/
def mvUpdateSpheres (world : Bool) (lms : List Landmark) :
    Nat → List SphereState → List SphereState
  | _, [] => []
  | i, sp :: rest =>
      mvSphereAt world lms i sp :: mvUpdateSpheres world lms (i + 1) rest

/-- One created bone cylinder: position (midpoint), squared length
(cylinder height), and the direction delta at the time of the normalize
call (the source halves the direction vector in place before normalising,
line 219; the stored quaternion is `setFromUnitVectors yAxis delta-hat`). -/
structure CylState where
  pos : Vec3
  lenSq : ℚ
  delta : Vec3
  deriving DecidableEq, Repr

/-- The per-connection cylinder construction of updateBones (lines
201-229): a cylinder appears exactly when both endpoint spheres are
visible and the length exceeds 0.01. -/
def mkCylMV (spheres : List SphereState) (conn : Nat × Nat) :
    Option CylState :=
  match spheres.get? conn.1, spheres.get? conn.2 with
  | some sa, some sb =>
      if sa.visible && sb.visible then
        let d := Vec3.sub sb.pos sa.pos
        if 1/10000 < Vec3.normSq d then
          some ⟨Vec3.add sa.pos (Vec3.smul (1/2) d), Vec3.normSq d,
                Vec3.smul (1/2) d⟩
        else none
      else none
  | _, _ => none

/-- Bone connection list of the model viewer (lines 112-133). -/
def mvConnections : List (Nat × Nat) :=
  [(0, 1), (1, 2), (2, 3), (3, 7),
   (0, 4), (4, 5), (5, 6), (6, 8),
   (9, 10),
   (11, 12),
   (11, 13), (13, 15),
   (12, 14), (14, 16),
   (15, 17), (15, 19), (15, 21),
   (16, 18), (16, 20), (16, 22),
   (11, 23), (12, 24), (23, 24),
   (23, 25), (25, 27),
   (24, 26), (26, 28),
   (27, 29), (27, 31),
   (28, 30), (28, 32)]

/-- updateBones (lines 187-230): old cylinders are discarded; with the
skeleton toggle off nothing is rebuilt. -/
def mvUpdateBones (showSkeleton : Bool) (spheres : List SphereState) :
    List CylState :=
  if showSkeleton then mvConnections.filterMap (mkCylMV spheres) else []

/-! ## PoseExporter / broadcast relay (webTest poseExporter.js) -/

/-- A raw landmark from the inference engine; `visibility` may be absent
(undefined in JS). -/
structure RawLandmark where
  x : ℚ
  y : ℚ
  z : ℚ
  visibility : Option ℚ
  deriving DecidableEq, Repr

/-- A MediaPipe detection result as read by exportPose: lists of per-person
landmark lists, either possibly absent. -/
structure PoseDetectionResult where
  landmarks : Option (List (List RawLandmark))
  worldLandmarks : Option (List (List RawLandmark))
  deriving DecidableEq, Repr

/-- WebSocket ready states. -/
inductive WSReadyState where
  | CONNECTING | OPEN | CLOSING | CLOSED
  deriving DecidableEq, Repr

/-- Mutable fields of the PoseExporter. `channel` records whether the
BroadcastChannel exists. -/
structure ExporterState where
  enabled : Bool
  channel : Bool
  websocket : Option WSReadyState
  frameCount : Nat
  lastExportTime : ℚ
  deriving DecidableEq, Repr

/-- The 33 landmark names of getLandmarkName (lines 118-152). -/
def landmarkNames : List String :=
  ["nose",
   "left_eye_inner", "left_eye", "left_eye_outer",
   "right_eye_inner", "right_eye", "right_eye_outer",
   "left_ear", "right_ear",
   "mouth_left", "mouth_right",
   "left_shoulder", "right_shoulder",
   "left_elbow", "right_elbow",
   "left_wrist", "right_wrist",
   "left_pinky", "right_pinky",
   "left_index", "right_index",
   "left_thumb", "right_thumb",
   "left_hip", "right_hip",
   "left_knee", "right_knee",
   "left_ankle", "right_ankle",
   "left_heel", "right_heel",
   "left_foot_index", "right_foot_index"]

/-- getLandmarkName: table lookup with the synthesized fallback label. -/
def getLandmarkName (i : Nat) : String :=
  (landmarkNames.get? i).getD ("landmark_" ++ toString i)

/-- The expression `landmark.visibility || 1.0`: JS `||` treats both an
absent value and the number 0 as falsy (NaN, absent from the rational
model, would also be falsy). -/
def jsOrOne (v : Option ℚ) : ℚ :=
  match v with
  | some x => if x = 0 then 1 else x
  | none => 1

/-- One serialized landmark of the relay wire format. -/
structure ExportedLandmark where
  id : Nat
  name : String
  x : ℚ
  y : ℚ
  z : ℚ
  visibility : ℚ
  deriving DecidableEq, Repr

/-- One serialized pose of the relay wire format. -/
structure ExportedPose where
  personId : Nat
  landmarks : List ExportedLandmark
  worldLandmarks : List ExportedLandmark
  deriving DecidableEq, Repr

/-- Video dimensions passed through the payload. -/
structure VideoInfo where
  width : Option ℚ
  height : Option ℚ
  deriving DecidableEq, Repr

/-- The relay payload (poseData object of lines 63-86). -/
structure ExportedPoseData where
  timestamp : ℚ
  frameCount : Nat
  poses : List ExportedPose
  videoInfo : VideoInfo
  deriving DecidableEq, Repr

/-- Indexed map, as Array.prototype.map with its index argument. -/
def mapWithIdx (f : Nat → α → β) : Nat → List α → List β
  | _, [] => []
  | i, a :: rest => f i a :: mapWithIdx f (i + 1) rest

/-- Serialization of one landmark (lines 68-75 and 76-83). -/
def mkExportedLandmark (idx : Nat) (lm : RawLandmark) : ExportedLandmark :=
  ⟨idx, getLandmarkName idx, lm.x, lm.y, lm.z, jsOrOne lm.visibility⟩

/-- Serialization of one person (lines 66-84):
`result.worldLandmarks?.[index]?.map(...) || []`. -/
def mkExportedPose (index : Nat) (lms : List RawLandmark)
    (wls : Option (List RawLandmark)) : ExportedPose :=
  ⟨index, mapWithIdx mkExportedLandmark 0 lms,
   ((wls.map (mapWithIdx mkExportedLandmark 0)).getD [])⟩

/-- The outward deliveries a single exportPose call performs. -/
inductive ExportEffect where
  | channelPost (pd : ExportedPoseData)
  | wsSend (pd : ExportedPoseData)
  | eventDispatch (pd : ExportedPoseData)
  deriving DecidableEq, Repr

/-- Guard of line 59: `!this.enabled || !result.landmarks ||
result.landmarks.length === 0`. -/
def exportGuardFails (s : ExporterState) (result : PoseDetectionResult) :
    Bool :=
  !s.enabled ||
    (match result.landmarks with
     | none => true
     | some ls => ls.isEmpty)

/-- The poseData payload built at lines 63-86 from the landmark lists
`ls`. -/
def exportPayload (s : ExporterState) (result : PoseDetectionResult)
    (timestamp : ℚ) (videoInfo : VideoInfo) (ls : List (List RawLandmark)) :
    ExportedPoseData :=
  { timestamp := timestamp,
    frameCount := s.frameCount,
    poses := mapWithIdx
      (fun i lms => mkExportedPose i lms
        (result.worldLandmarks.bind fun w => w.get? i)) 0 ls,
    videoInfo := videoInfo }

/-- PoseExporter.exportPose (lines 58-112).  Returns the new state and the
ordered list of deliveries: BroadcastChannel post (if the channel exists),
WebSocket send (only when the socket exists and is OPEN), then the
same-page CustomEvent dispatch (always).  The frame counter is
post-incremented while building the payload and `lastExportTime` is set at
the end. -/
def exportPose (s : ExporterState) (result : PoseDetectionResult)
    (timestamp : ℚ) (videoInfo : VideoInfo) :
    ExporterState × List ExportEffect :=
  if exportGuardFails s result then (s, [])
  else
    match result.landmarks with
    | none => (s, [])  -- unreachable: the guard already returned
    | some ls =>
        let pd := exportPayload s result timestamp videoInfo ls
        ({ s with frameCount := s.frameCount + 1,
                  lastExportTime := timestamp },
         (if s.channel then [ExportEffect.channelPost pd] else []) ++
         (if s.websocket = some WSReadyState.OPEN then
            [ExportEffect.wsSend pd] else []) ++
         [ExportEffect.eventDispatch pd])

theorem mapWithIdx_get? (f : Nat → α → β) :
    ∀ (l : List α) (i0 k : Nat),
      (mapWithIdx f i0 l).get? k = (l.get? k).map (fun a => f (i0 + k) a) := by
  intro l
  induction l with
  | nil => intro i0 k; simp [mapWithIdx]
  | cons a rest ih =>
      intro i0 k
      cases k with
      | zero => simp [mapWithIdx]
      | succ n =>
          have harith : i0 + (n + 1) = i0 + 1 + n := by omega
          simp only [mapWithIdx, List.get?_cons_succ, ih (i0 + 1) n, harith]

theorem mapWithIdx_getElem? (f : Nat → α → β) (l : List α) (i0 k : Nat) :
    (mapWithIdx f i0 l)[k]? = (l[k]?).map (fun a => f (i0 + k) a) := by
  rw [← List.get?_eq_getElem?, ← List.get?_eq_getElem?, mapWithIdx_get?]

/-! ## Spec-side conversion formulas (for the refinement claim C4) -/

/-- The spec's normalized-space conversion, following its words: x' =
(x - 0.5) * 2, y' = -(y - 0.5) * 2, z' = -z * depthScale. -/
def specNormalizedConversion (depthScale : ℚ) (lm : Landmark) : Vec3 :=
  ⟨(lm.x - 1/2) * 2, -(lm.y - 1/2) * 2, -lm.z * depthScale⟩

/-- The spec's world-space conversion, following its words: x' = -x,
y' = -y + verticalOffset, z' = -z. -/
def specWorldConversion (verticalOffset : ℚ) (lm : Landmark) : Vec3 :=
  ⟨-lm.x, -lm.y + verticalOffset, -lm.z⟩

/-! ## Helper lemmas -/

theorem updateJoints_get? (scale : ℚ) (showJoints : Bool)
    (lms : List Landmark) :
    ∀ (js : List JointState) (i0 k : Nat),
      (updateJoints scale showJoints lms i0 js).get? k =
        (js.get? k).map (jointUpdateSR scale showJoints lms (i0 + k)) := by
  intro js
  induction js with
  | nil => intro i0 k; simp [updateJoints]
  | cons j rest ih =>
      intro i0 k
      cases k with
      | zero => simp [updateJoints]
      | succ n =>
          have harith : i0 + (n + 1) = i0 + 1 + n := by omega
          simp only [updateJoints, List.get?_cons_succ, ih (i0 + 1) n, harith]

/-! ### Lookup/update lemmas for the character-viewer bone dictionary -/

theorem getBone_updateIfPresent (bones : List (String × MeshState))
    (k kq : String) (f : MeshState → MeshState) :
    getBone (updateIfPresent bones kq f) k =
      if k = kq then (getBone bones k).map f else getBone bones k := by
  induction bones with
  | nil => by_cases h : k = kq <;> simp [h, getBone, updateIfPresent]
  | cons e rest ih =>
      simp only [updateIfPresent, List.map_cons] at ih ⊢
      by_cases hkq : k = kq
      · subst hkq
        rw [if_pos rfl] at ih ⊢
        by_cases hek : e.1 = k
        · rw [if_pos hek]
          simp [getBone, hek]
        · rw [if_neg hek]
          simp only [getBone, if_neg hek]
          exact ih
      · rw [if_neg hkq] at ih ⊢
        by_cases hek : e.1 = kq
        · have hek2 : ¬ e.1 = k := fun h => hkq (h ▸ hek)
          rw [if_pos hek]
          simp only [getBone, if_neg hek2]
          exact ih
        · rw [if_neg hek]
          by_cases hek2 : e.1 = k
          · simp [getBone, hek2]
          · simp only [getBone, if_neg hek2]
            exact ih

/-- Distinct suffixes appended to the same name give distinct keys. -/
theorem append_suffix_ne (name : String) {a b : String}
    (h : ¬ a.data = b.data) : name ++ a ≠ name ++ b := by
  intro he
  apply h
  have hd : (name ++ a).data = (name ++ b).data := by rw [he]
  rw [String.data_append, String.data_append] at hd
  exact List.append_cancel_left hd

/-! ## Claims -/

/-- The sixteen limb-bone dictionary keys, with their appends reduced. -/
theorem limbKeyAppendEqs :
    ("leftArm" ++ "Upper" : String) = "leftArmUpper" ∧
    ("leftArm" ++ "Joint" : String) = "leftArmJoint" ∧
    ("leftArm" ++ "Lower" : String) = "leftArmLower" ∧
    ("leftArm" ++ "End" : String) = "leftArmEnd" ∧
    ("rightArm" ++ "Upper" : String) = "rightArmUpper" ∧
    ("rightArm" ++ "Joint" : String) = "rightArmJoint" ∧
    ("rightArm" ++ "Lower" : String) = "rightArmLower" ∧
    ("rightArm" ++ "End" : String) = "rightArmEnd" ∧
    ("leftLeg" ++ "Upper" : String) = "leftLegUpper" ∧
    ("leftLeg" ++ "Joint" : String) = "leftLegJoint" ∧
    ("leftLeg" ++ "Lower" : String) = "leftLegLower" ∧
    ("leftLeg" ++ "End" : String) = "leftLegEnd" ∧
    ("rightLeg" ++ "Upper" : String) = "rightLegUpper" ∧
    ("rightLeg" ++ "Joint" : String) = "rightLegJoint" ∧
    ("rightLeg" ++ "Lower" : String) = "rightLegLower" ∧
    ("rightLeg" ++ "End" : String) = "rightLegEnd" :=
  ⟨rfl, rfl, rfl, rfl, rfl, rfl, rfl, rfl, rfl, rfl, rfl, rfl, rfl, rfl,
   rfl, rfl⟩

/-- After a procedural update with a visible nose landmark, the head entry
of the bone dictionary is the old entry with its position replaced by the
converted nose position (all other update keys differ from "head"). -/
theorem proceduralUpdateCV_head (bones : List (String × MeshState))
    (lms : List Landmark) (world : Bool) (hvis : 1/2 < visAt lms 0) :
    getBone (proceduralUpdateCV bones lms world) ("head") =
      (getBone bones ("head")).map
        (fun m => { m with pos := getPosCV world lms 0 }) := by
  unfold proceduralUpdateCV updateLimbCV
  simp only [getBone_updateIfPresent, limbKeyAppendEqs, hvis]
  simp [getBone_updateIfPresent, limbKeyAppendEqs]

/-- Claim C1 (amended).  The skeleton renderer's updatePose leaves the
whole state untouched for a missing landmarks argument and for any count
other than 33; the character viewer's updateCharacterFromPose leaves the
state untouched when there is no pose entry or when the selected landmark
list has fewer than 33 entries (counts above 33 are processed there, see
the counterexample). -/
theorem claim_C1 :
    (∀ s : SkeletonState, updatePose s none = s) ∧
    (∀ (s : SkeletonState) (lms : List Landmark),
      lms.length ≠ 33 → updatePose s (some lms) = s) ∧
    (∀ (s : ViewerState) (pd : PoseDataCV),
      pd.poses = [] → updateCharacterFromPose s pd = (s, false)) ∧
    (∀ (s : ViewerState) (pd : PoseDataCV) (pose : PoseCV)
        (rest : List PoseCV),
      pd.poses = pose :: rest →
      (if 0 < pose.worldLandmarks.length then pose.worldLandmarks
       else pose.landmarks).length < 33 →
      updateCharacterFromPose s pd = (s, false)) := by
  refine ⟨fun s => rfl, fun s lms h => ?_, fun s pd h => ?_, ?_⟩
  · simp [updatePose, h]
  · simp [updateCharacterFromPose, h]
  · intro s pd pose rest hpd hlt
    simp only [updateCharacterFromPose, hpd]
    split at hlt <;> simp_all

/-- Witness for claim C1's amended theorem at concrete inputs. -/
theorem claim_C1_witness :
    (updatePose ⟨[], [], 1, true, true⟩ none = ⟨[], [], 1, true, true⟩) ∧
    (updatePose ⟨[], [], 1, true, true⟩ (some []) = ⟨[], [], 1, true, true⟩) ∧
    (updateCharacterFromPose initViewerState ⟨[]⟩ = (initViewerState, false)) ∧
    (updateCharacterFromPose initViewerState
        ⟨[⟨List.replicate 5 ⟨0, 0, 0, 1⟩, []⟩]⟩ = (initViewerState, false)) :=
  ⟨claim_C1.1 _,
   claim_C1.2.1 _ [] (by decide),
   claim_C1.2.2.1 _ ⟨[]⟩ rfl,
   claim_C1.2.2.2 _ _ ⟨List.replicate 5 ⟨0, 0, 0, 1⟩, []⟩ [] rfl (by decide)⟩

/-- Counterexample to claim C1 as stated: a 34-entry frame (count ≠ 33,
hence malformed per the claim) is processed by
CharacterPoseViewer.updateCharacterFromPose, which moves the head mesh. -/
theorem claim_C1_counterexample :
    (34 : Nat) ≠ 33 ∧
    ((getBone (updateCharacterFromPose initViewerState
        ⟨[⟨List.replicate 34 ⟨0, 0, 0, 1⟩, []⟩]⟩).1.bones ("head")).map
          MeshState.pos ≠
      (getBone initViewerState.bones ("head")).map MeshState.pos) := by
  constructor
  · decide
  · have hstep : (updateCharacterFromPose initViewerState
        ⟨[⟨List.replicate 34 ⟨0, 0, 0, 1⟩, []⟩]⟩).1 =
        { initViewerState with
            bones := proceduralUpdateCV initViewerState.bones
              (List.replicate 34 ⟨0, 0, 0, 1⟩) false } := by
      norm_num [updateCharacterFromPose, initViewerState]
    rw [hstep]
    have hvis : (1 : ℚ)/2 < visAt (List.replicate 34 ⟨0, 0, 0, 1⟩) 0 := by
      norm_num [visAt, List.replicate]
    rw [proceduralUpdateCV_head _ _ _ hvis]
    have hbase : getBone initViewerState.bones ("head") =
        some ⟨⟨0, 3/2, 0⟩, none, 1⟩ := by
      norm_num [initViewerState, proceduralBones, getBone]
    rw [hbase]
    norm_num [getPosCV, cvConvertNorm, List.replicate, Vec3.mk.injEq]

/-- Claim C4 (amended).  The skeleton renderer's conversion is exactly the
spec's normalized formula with depthScale 2; the character viewer's world
branch is exactly the spec's world formula with verticalOffset 1.5; but
the character viewer's normalized branch adds the same vertical offset 1.5
on top of the spec's normalized formula. -/
theorem claim_C4 :
    (∀ lm : Landmark, convertLandmark lm = specNormalizedConversion 2 lm) ∧
    (∀ lm : Landmark, cvConvertWorld lm = specWorldConversion (3/2) lm) ∧
    (∀ lm : Landmark,
      cvConvertNorm lm =
        Vec3.add (specNormalizedConversion 2 lm) ⟨0, 3/2, 0⟩) := by
  refine ⟨fun lm => ?_, fun lm => rfl, fun lm => ?_⟩
  · simp only [convertLandmark, specNormalizedConversion]
    rw [Vec3.mk.injEq]
    refine ⟨by ring, by ring, by ring⟩
  · simp only [cvConvertNorm, specNormalizedConversion, Vec3.add]
    rw [Vec3.mk.injEq]
    refine ⟨by ring, by ring, by ring⟩

/-- Counterexample to claim C4 as stated: at the normalized landmark
(0, 0.5, 0) the character viewer's normalized branch returns y' = 1.5,
not the claimed y' = -(y - 0.5) * 2 = 0. -/
theorem claim_C4_counterexample :
    cvConvertNorm ⟨0, 1/2, 0, 1⟩ ≠
      specNormalizedConversion 2 ⟨0, 1/2, 0, 1⟩ := by
  simp only [cvConvertNorm, specNormalizedConversion, ne_eq, Vec3.mk.injEq]
  norm_num

/-- Claim C9 (confirmed).  A publish while the exporter is disabled
performs no deliveries at all and leaves the exporter state unchanged; a
publish while the WebSocket is not connected produces no wsSend but still
posts to the BroadcastChannel (when present) and dispatches the same-page
event. -/
theorem claim_C9 :
    (∀ (s : ExporterState) (result : PoseDetectionResult) (ts : ℚ)
        (vi : VideoInfo), s.enabled = false →
      exportPose s result ts vi = (s, [])) ∧
    (∀ (s : ExporterState) (result : PoseDetectionResult) (ts : ℚ)
        (vi : VideoInfo) (ls : List (List RawLandmark)),
      s.enabled = true → result.landmarks = some ls → ls ≠ [] →
      s.websocket ≠ some WSReadyState.OPEN →
      (exportPose s result ts vi).2 =
        (if s.channel then
           [ExportEffect.channelPost (exportPayload s result ts vi ls)]
         else []) ++
        [ExportEffect.eventDispatch (exportPayload s result ts vi ls)]) := by
  constructor
  · intro s result ts vi h
    simp [exportPose, exportGuardFails, h]
  · intro s result ts vi ls hen hls hne hws
    have hguard : exportGuardFails s result = false := by
      simp [exportGuardFails, hen, hls, List.isEmpty_iff, hne]
    simp [exportPose, hguard, hls, hws]

/-- Witness for claim C9 at concrete inputs: a disabled exporter delivers
nothing; an enabled exporter with a closed socket posts to the channel and
dispatches the event only. -/
theorem claim_C9_witness :
    (exportPose ⟨false, true, some WSReadyState.OPEN, 0, 0⟩
        ⟨some [[⟨0, 0, 0, some 1⟩]], none⟩ 0 ⟨none, none⟩ =
      (⟨false, true, some WSReadyState.OPEN, 0, 0⟩, [])) ∧
    ((exportPose ⟨true, true, some WSReadyState.CLOSED, 0, 0⟩
        ⟨some [[⟨0, 0, 0, some 1⟩]], none⟩ 0 ⟨none, none⟩).2 =
      [ExportEffect.channelPost
         (exportPayload ⟨true, true, some WSReadyState.CLOSED, 0, 0⟩
           ⟨some [[⟨0, 0, 0, some 1⟩]], none⟩ 0 ⟨none, none⟩
           [[⟨0, 0, 0, some 1⟩]]),
       ExportEffect.eventDispatch
         (exportPayload ⟨true, true, some WSReadyState.CLOSED, 0, 0⟩
           ⟨some [[⟨0, 0, 0, some 1⟩]], none⟩ 0 ⟨none, none⟩
           [[⟨0, 0, 0, some 1⟩]])]) := by
  constructor
  · exact claim_C9.1 _ _ _ _ rfl
  · have h := claim_C9.2 ⟨true, true, some WSReadyState.CLOSED, 0, 0⟩
      ⟨some [[⟨0, 0, 0, some 1⟩]], none⟩ 0 ⟨none, none⟩
      [[⟨0, 0, 0, some 1⟩]] rfl rfl (by simp) (by simp)
    simpa using h

/-- Claim C10 (confirmed).  Every published landmark's visibility field is
`jsOrOne` of the upstream visibility: the upstream value when it is a
nonzero number, and 1.0 when the upstream visibility is absent or exactly
0 (so a zero-confidence landmark is broadcast as fully visible).  This
holds for both the landmarks and the worldLandmarks lists. -/
theorem claim_C10 :
    (∀ (s : ExporterState) (result : PoseDetectionResult) (ts : ℚ)
        (vi : VideoInfo) (ls : List (List RawLandmark)) (i j : Nat)
        (person : List RawLandmark) (lm : RawLandmark),
      ls.get? i = some person → person.get? j = some lm →
      (((exportPayload s result ts vi ls).poses.get? i).bind
          (fun ep => ep.landmarks.get? j)).map ExportedLandmark.visibility =
        some (jsOrOne lm.visibility)) ∧
    (∀ (s : ExporterState) (result : PoseDetectionResult) (ts : ℚ)
        (vi : VideoInfo) (ls ws : List (List RawLandmark)) (i j : Nat)
        (person wperson : List RawLandmark) (wlm : RawLandmark),
      ls.get? i = some person →
      result.worldLandmarks = some ws → ws.get? i = some wperson →
      wperson.get? j = some wlm →
      (((exportPayload s result ts vi ls).poses.get? i).bind
          (fun ep => ep.worldLandmarks.get? j)).map
            ExportedLandmark.visibility =
        some (jsOrOne wlm.visibility)) ∧
    (jsOrOne (some 0) = 1) ∧ (jsOrOne none = 1) ∧
    (∀ v : ℚ, v ≠ 0 → jsOrOne (some v) = v) := by
  refine ⟨?_, ?_, rfl, rfl, ?_⟩
  · intro s result ts vi ls i j person lm hi hj
    simp only [List.get?_eq_getElem?] at hi hj
    simp [exportPayload, mapWithIdx_getElem?, hi, hj, mkExportedPose,
      mkExportedLandmark]
  · intro s result ts vi ls ws i j person wperson wlm hi hw hwi hwj
    simp only [List.get?_eq_getElem?] at hi hwi hwj
    simp [exportPayload, mapWithIdx_getElem?, hi, hw, hwi, hwj,
      mkExportedPose, mkExportedLandmark]
  · intro v hv
    simp [jsOrOne, hv]

/-- Witness for claim C10 at concrete inputs: upstream visibility 0 and
absent visibility are both published as 1; nonzero visibility 1/2 passes
through (for both landmark lists). -/
theorem claim_C10_witness :
    ((((exportPayload ⟨true, true, none, 0, 0⟩
          ⟨some [[⟨0, 0, 0, some 0⟩, ⟨0, 0, 0, none⟩]], none⟩ 0 ⟨none, none⟩
          [[⟨0, 0, 0, some 0⟩, ⟨0, 0, 0, none⟩]]).poses.get? 0).bind
        (fun ep => ep.landmarks.get? 0)).map ExportedLandmark.visibility =
      some 1) ∧
    ((((exportPayload ⟨true, true, none, 0, 0⟩
          ⟨some [[⟨0, 0, 0, some 0⟩, ⟨0, 0, 0, none⟩]], none⟩ 0 ⟨none, none⟩
          [[⟨0, 0, 0, some 0⟩, ⟨0, 0, 0, none⟩]]).poses.get? 0).bind
        (fun ep => ep.landmarks.get? 1)).map ExportedLandmark.visibility =
      some 1) ∧
    ((((exportPayload ⟨true, true, none, 0, 0⟩
          ⟨some [[⟨0, 0, 0, some 0⟩]], some [[⟨0, 0, 0, some (1/2)⟩]]⟩ 0
          ⟨none, none⟩
          [[⟨0, 0, 0, some 0⟩]]).poses.get? 0).bind
        (fun ep => ep.worldLandmarks.get? 0)).map ExportedLandmark.visibility =
      some (1/2)) := by
  refine ⟨?_, ?_, ?_⟩
  · have h := claim_C10.1 ⟨true, true, none, 0, 0⟩
      ⟨some [[⟨0, 0, 0, some 0⟩, ⟨0, 0, 0, none⟩]], none⟩ 0 ⟨none, none⟩
      [[⟨0, 0, 0, some 0⟩, ⟨0, 0, 0, none⟩]] 0 0
      [⟨0, 0, 0, some 0⟩, ⟨0, 0, 0, none⟩] ⟨0, 0, 0, some 0⟩ rfl rfl
    simpa [jsOrOne] using h
  · have h := claim_C10.1 ⟨true, true, none, 0, 0⟩
      ⟨some [[⟨0, 0, 0, some 0⟩, ⟨0, 0, 0, none⟩]], none⟩ 0 ⟨none, none⟩
      [[⟨0, 0, 0, some 0⟩, ⟨0, 0, 0, none⟩]] 0 1
      [⟨0, 0, 0, some 0⟩, ⟨0, 0, 0, none⟩] ⟨0, 0, 0, none⟩ rfl rfl
    simpa [jsOrOne] using h
  · have h := claim_C10.2.1 ⟨true, true, none, 0, 0⟩
      ⟨some [[⟨0, 0, 0, some 0⟩]], some [[⟨0, 0, 0, some (1/2)⟩]]⟩ 0
      ⟨none, none⟩
      [[⟨0, 0, 0, some 0⟩]] [[⟨0, 0, 0, some (1/2)⟩]] 0 0
      [⟨0, 0, 0, some 0⟩] [⟨0, 0, 0, some (1/2)⟩] ⟨0, 0, 0, some (1/2)⟩
      rfl rfl rfl rfl
    have hv : jsOrOne (some (1/2 : ℚ)) = 1/2 := by norm_num [jsOrOne]
    rw [h, hv]

/-! ### Helper lemmas for the bone-role matching fold -/

theorem claimRole_apply_ne (obj : GltfObject) (m : Role → Option GltfObject)
    (entry : Role × List String) (r : Role) (h : entry.1 ≠ r) :
    claimRole obj m entry r = m r := by
  unfold claimRole
  split
  · exact Function.update_noteq (Ne.symm h) _ m
  · rfl

theorem foldl_claimRole_not_mem (obj : GltfObject) (L : List Role) :
    ∀ (m : Role → Option GltfObject) (r : Role), r ∉ L →
      ((L.map fun x => (x, aliasesOf x)).foldl (claimRole obj) m) r = m r := by
  induction L with
  | nil => intro m r _; rfl
  | cons a t ih =>
      intro m r hr
      have hne : a ≠ r := fun h => hr (h ▸ List.mem_cons_self a t)
      have hrt : r ∉ t := fun h => hr (List.mem_cons_of_mem a h)
      simp only [List.map_cons, List.foldl_cons]
      rw [ih _ r hrt, claimRole_apply_ne obj m (a, aliasesOf a) r hne]

theorem foldl_claimRole_mem (obj : GltfObject) (L : List Role) :
    ∀ (m : Role → Option GltfObject) (r : Role), L.Nodup → r ∈ L →
      ((L.map fun x => (x, aliasesOf x)).foldl (claimRole obj) m) r =
        if nameMatches obj.name (aliasesOf r) && (m r).isNone then some obj
        else m r := by
  induction L with
  | nil => intro m r _ hr; exact absurd hr (List.not_mem_nil r)
  | cons a t ih =>
      intro m r hnd hr
      simp only [List.map_cons, List.foldl_cons]
      rcases List.mem_cons.mp hr with heq | hmem
      · subst heq
        have hat : r ∉ t := (List.nodup_cons.mp hnd).1
        rw [foldl_claimRole_not_mem obj t _ r hat]
        unfold claimRole
        split
        · exact Function.update_same r (some obj) m
        · rfl
      · have hne : a ≠ r := by
          rintro rfl
          exact (List.nodup_cons.mp hnd).1 hmem
        rw [ih _ r (List.nodup_cons.mp hnd).2 hmem,
          claimRole_apply_ne obj m (a, aliasesOf a) r hne]

theorem roleList_nodup : roleList.Nodup := by decide

theorem mem_roleList (r : Role) : r ∈ roleList := by cases r <;> decide

theorem findGLTFBones_go (objects : List GltfObject) :
    ∀ (m : Role → Option GltfObject) (r : Role),
      (objects.foldl
        (fun m obj =>
          if obj.isBone || obj.isObject3D then
            commonBoneNames.foldl (claimRole obj) m
          else m) m) r =
      match m r with
      | some b => some b
      | none =>
          objects.find? fun o =>
            (o.isBone || o.isObject3D) && nameMatches o.name (aliasesOf r) := by
  induction objects with
  | nil =>
      intro m r
      simp only [List.foldl_nil]
      cases m r <;> simp [List.find?]
  | cons o os ih =>
      intro m r
      have hstep :
          (if o.isBone || o.isObject3D then
             commonBoneNames.foldl (claimRole o) m
           else m) r =
          if ((o.isBone || o.isObject3D) &&
                nameMatches o.name (aliasesOf r)) && (m r).isNone then some o
          else m r := by
        by_cases hg : (o.isBone || o.isObject3D) = true
        · rw [if_pos hg]
          have := foldl_claimRole_mem o roleList m r roleList_nodup
            (mem_roleList r)
          simpa [commonBoneNames, hg] using this
        · have hg' : (o.isBone || o.isObject3D) = false :=
            Bool.not_eq_true _ ▸ (by simpa using hg)
          rw [if_neg (by simp [hg']), hg']
          simp
      simp only [List.foldl_cons]
      rw [ih _ r, hstep]
      cases hmr : m r with
      | some b =>
          simp [hmr]
      | none =>
          simp only [hmr, Option.isNone_none, Bool.and_true]
          by_cases hp :
              ((o.isBone || o.isObject3D) &&
                nameMatches o.name (aliasesOf r)) = true
          · simp [hp, List.find?]
          · have hp' : ((o.isBone || o.isObject3D) &&
                nameMatches o.name (aliasesOf r)) = false := by
              simpa using hp
            simp [hp', List.find?]

/-- Claim C7 (confirmed).  For every traversal order of rig objects and
every role, the matcher assigns to the role exactly the first object (in
traversal order) passing the isBone/isObject3D guard whose name contains,
case-insensitively as a substring, one of that role's alias spellings; in
particular a role is assigned at all precisely when such an object exists,
the first match wins, and an already-claimed role is never overwritten. -/
theorem claim_C7 (objects : List GltfObject) (r : Role) :
    findGLTFBones objects r =
      (objects.find? fun o =>
        (o.isBone || o.isObject3D) && nameMatches o.name (aliasesOf r)) ∧
    ((findGLTFBones objects r).isSome ↔
      ∃ o ∈ objects,
        ((o.isBone || o.isObject3D) && nameMatches o.name (aliasesOf r))
          = true) := by
  have h := findGLTFBones_go objects (fun _ => none) r
  have h1 : findGLTFBones objects r =
      (objects.find? fun o =>
        (o.isBone || o.isObject3D) && nameMatches o.name (aliasesOf r)) := h
  refine ⟨h1, ?_⟩
  rw [h1]
  exact List.find?_isSome

/-- Claim C8 (amended).  When zero bone roles are matched, every GLTF pose
update signals the unrigged condition (the warning flag is true) and
applies no bone rotations and no procedural-bone updates; the fall back to
the default procedural rig happens only on the load-failure path — a
successful load keeps the custom model active (and empties the procedural
bone map) regardless of how many roles matched. -/
theorem claim_C8 :
    (∀ (s : ViewerState) (lms : List Landmark) (world : Bool),
      matchedCount s.gltfBones = 0 →
      (updateGLTFModelFromPose s lms world).2 = true ∧
      (updateGLTFModelFromPose s lms world).1.gltfRotations =
        s.gltfRotations ∧
      (updateGLTFModelFromPose s lms world).1.bones = s.bones) ∧
    (∀ s : ViewerState,
      (loadGLTFModel s GLTFLoadOutcome.failure).bones = proceduralBones) ∧
    (∀ (s : ViewerState) (objs : List GltfObject),
      (loadGLTFModel s (GLTFLoadOutcome.success objs)).modelType =
        ModelType.custom ∧
      (loadGLTFModel s (GLTFLoadOutcome.success objs)).bones = []) := by
  refine ⟨?_, fun s => rfl, fun s objs => ⟨rfl, rfl⟩⟩
  intro s lms world h
  have hnot : ¬ 0 < matchedCount s.gltfBones := by omega
  refine ⟨?_, ?_, ?_⟩ <;> simp [updateGLTFModelFromPose, hnot]

/-- Witness for claim C8's amended theorem at concrete inputs. -/
theorem claim_C8_witness :
    ((updateGLTFModelFromPose initViewerState [] false).2 = true ∧
     (updateGLTFModelFromPose initViewerState [] false).1.gltfRotations =
       initViewerState.gltfRotations ∧
     (updateGLTFModelFromPose initViewerState [] false).1.bones =
       initViewerState.bones) ∧
    ((loadGLTFModel initViewerState GLTFLoadOutcome.failure).bones =
      proceduralBones) ∧
    ((loadGLTFModel initViewerState (GLTFLoadOutcome.success [])).modelType =
      ModelType.custom) :=
  ⟨claim_C8.1 initViewerState [] false (by decide),
   claim_C8.2.1 initViewerState,
   (claim_C8.2.2 initViewerState []).1⟩

/-- The viewer state after successfully loading a rig whose only object
has the unmatchable name "foo". -/
def unmatchedLoadState : ViewerState :=
  loadGLTFModel initViewerState
    (GLTFLoadOutcome.success [⟨"foo", true, true⟩])

/-- Counterexample to claim C8 as stated: loading a model whose only
object is named unmatchably yields zero bone-role matches, yet the viewer
does not fall back to the default procedural rig — the custom model stays
active (the GLTF dispatch condition of updateCharacterFromPose holds) and
the procedural bone map is empty. -/
theorem claim_C8_counterexample :
    matchedCount unmatchedLoadState.gltfBones = 0 ∧
    unmatchedLoadState.modelType = ModelType.custom ∧
    unmatchedLoadState.loadedGLTFModel.isSome = true ∧
    unmatchedLoadState.bones = [] := by
  refine ⟨by decide, rfl, rfl, rfl⟩

/-! ### Helper lemmas for the per-frame update loops -/

theorem mvUpdateSpheres_get? (world : Bool) (lms : List Landmark) :
    ∀ (sps : List SphereState) (i0 k : Nat),
      (mvUpdateSpheres world lms i0 sps).get? k =
        (sps.get? k).map (mvSphereAt world lms (i0 + k)) := by
  intro sps
  induction sps with
  | nil => intro i0 k; simp [mvUpdateSpheres]
  | cons sp rest ih =>
      intro i0 k
      cases k with
      | zero => simp [mvUpdateSpheres]
      | succ n =>
          have harith : i0 + (n + 1) = i0 + 1 + n := by omega
          simp only [mvUpdateSpheres, List.get?_cons_succ, ih (i0 + 1) n,
            harith]

theorem updatePose_bones_get? (s : SkeletonState) (lms : List Landmark)
    (k : Nat) (hL : lms.length = 33) :
    (updatePose s (some lms)).bones.get? k =
      (s.bones.get? k).map
        (boneUpdateSR s.showBones
          (updateJoints s.scale s.showJoints lms 0 s.joints)) := by
  simp [updatePose, hL, List.get?_map]

theorem sr_joint_lookup (s : SkeletonState) (lms : List Landmark) (i : Nat)
    (hJ : s.joints.length = 33) (hi : i < 33) :
    ∃ j0, s.joints.get? i = some j0 ∧
      (updateJoints s.scale s.showJoints lms 0 s.joints).get? i =
        some (jointUpdateSR s.scale s.showJoints lms i j0) := by
  have hlt : i < s.joints.length := by omega
  refine ⟨s.joints.get ⟨i, hlt⟩, List.get?_eq_get hlt, ?_⟩
  rw [updateJoints_get? s.scale s.showJoints lms s.joints 0 i,
    List.get?_eq_get hlt]
  simp

/-- Claim C2 (confirmed).  In both renderers: an endpoint confidence below
the consumer's threshold (0.3 in the skeleton renderer, 0.5 in the model
viewer) always hides the segment (confidence 0 in particular); confidence
1 on both endpoints together with a non-degenerate computed length always
yields a visible segment, under the constructor-default display toggles. -/
theorem claim_C2 :
    (∀ (s : SkeletonState) (lms : List Landmark) (k : Nat) (b : BoneState)
        (lmS lmE : Landmark),
      s.joints.length = 33 → lms.length = 33 →
      s.bones.get? k = some b →
      lms.get? b.startIdx = some lmS → lms.get? b.endIdx = some lmE →
      (lmS.visibility < srThreshold ∨ lmE.visibility < srThreshold) →
      ((updatePose s (some lms)).bones.get? k).map BoneState.visible =
        some false) ∧
    (∀ (s : SkeletonState) (lms : List Landmark) (k : Nat) (b : BoneState)
        (lmS lmE : Landmark),
      s.joints.length = 33 → lms.length = 33 →
      s.bones.get? k = some b →
      lms.get? b.startIdx = some lmS → lms.get? b.endIdx = some lmE →
      lmS.visibility = 1 → lmE.visibility = 1 →
      s.showJoints = true → s.showBones = true →
      0 < Vec3.normSq (Vec3.sub (Vec3.smul s.scale (convertLandmark lmE))
            (Vec3.smul s.scale (convertLandmark lmS))) →
      ((updatePose s (some lms)).bones.get? k).map BoneState.visible =
        some true) ∧
    (∀ (prev : List SphereState) (world : Bool) (lms : List Landmark)
        (conn : Nat × Nat) (lm : Landmark),
      prev.length = 33 → conn.1 < 33 → conn.2 < 33 →
      ((lms.get? conn.1 = some lm ∧ lm.visibility < 1/2) ∨
       (lms.get? conn.2 = some lm ∧ lm.visibility < 1/2)) →
      mkCylMV (mvUpdateSpheres world lms 0 prev) conn = none) ∧
    (∀ (prev : List SphereState) (world : Bool) (lms : List Landmark)
        (conn : Nat × Nat) (lmA lmB : Landmark),
      prev.length = 33 → conn.1 < 33 → conn.2 < 33 →
      lms.get? conn.1 = some lmA → lms.get? conn.2 = some lmB →
      lmA.visibility = 1 → lmB.visibility = 1 →
      1/10000 < Vec3.normSq (Vec3.sub (mvConvert world lmB)
        (mvConvert world lmA)) →
      (mkCylMV (mvUpdateSpheres world lms 0 prev) conn).isSome = true) := by
  refine ⟨?_, ?_, ?_, ?_⟩
  · intro s lms k b lmS lmE hJ hL hb hS hE hvis
    obtain ⟨hiS, -⟩ := List.get?_eq_some.mp hS
    obtain ⟨hiE, -⟩ := List.get?_eq_some.mp hE
    rw [hL] at hiS hiE
    obtain ⟨j0, hj0, hJ0⟩ := sr_joint_lookup s lms b.startIdx hJ hiS
    obtain ⟨e0, he0, hE0⟩ := sr_joint_lookup s lms b.endIdx hJ hiE
    rw [updatePose_bones_get? s lms k hL, hb]
    simp only [Option.map_some']
    simp only [List.get?_eq_getElem?] at hJ0 hE0 hS hE
    rcases hvis with h | h
    · simp [boneUpdateSR, hJ0, hE0, jointUpdateSR, hS, asymm h]
    · simp [boneUpdateSR, hJ0, hE0, jointUpdateSR, hE, asymm h]
  · intro s lms k b lmS lmE hJ hL hb hS hE hvs hve hsj hsb hpos
    obtain ⟨hiS, -⟩ := List.get?_eq_some.mp hS
    obtain ⟨hiE, -⟩ := List.get?_eq_some.mp hE
    rw [hL] at hiS hiE
    obtain ⟨j0, hj0, hJ0⟩ := sr_joint_lookup s lms b.startIdx hJ hiS
    obtain ⟨e0, he0, hE0⟩ := sr_joint_lookup s lms b.endIdx hJ hiE
    rw [updatePose_bones_get? s lms k hL, hb]
    simp only [Option.map_some']
    have hltS : srThreshold < lmS.visibility := by
      rw [hvs]; norm_num [srThreshold]
    have hltE : srThreshold < lmE.visibility := by
      rw [hve]; norm_num [srThreshold]
    simp only [List.get?_eq_getElem?] at hJ0 hE0 hS hE
    rw [hsj] at hJ0 hE0
    simp [boneUpdateSR, hsj, hsb, hJ0, hE0, jointUpdateSR, hS, hE, hltS,
      hltE, hpos]
  · intro prev world lms conn lm hp h1 h2 hvis
    have hlt1 : conn.1 < prev.length := by omega
    have hlt2 : conn.2 < prev.length := by omega
    have hg1 := List.get?_eq_get hlt1
    have hg2 := List.get?_eq_get hlt2
    have hm1 : (mvUpdateSpheres world lms 0 prev).get? conn.1 =
        some (mvSphereAt world lms conn.1 (prev.get ⟨conn.1, hlt1⟩)) := by
      rw [mvUpdateSpheres_get? world lms prev 0 conn.1, hg1]; simp
    have hm2 : (mvUpdateSpheres world lms 0 prev).get? conn.2 =
        some (mvSphereAt world lms conn.2 (prev.get ⟨conn.2, hlt2⟩)) := by
      rw [mvUpdateSpheres_get? world lms prev 0 conn.2, hg2]; simp
    rcases hvis with ⟨hlm, hv⟩ | ⟨hlm, hv⟩
    · have hvf : (mvSphereAt world lms conn.1 prev[conn.1]).visible
          = false := by
        simp only [mvSphereAt, List.get?_eq_getElem?] at hlm ⊢
        rw [hlm]
        simpa using asymm hv
      unfold mkCylMV
      rw [hm1, hm2]
      simp [hvf]
    · have hvf : (mvSphereAt world lms conn.2 prev[conn.2]).visible
          = false := by
        simp only [mvSphereAt, List.get?_eq_getElem?] at hlm ⊢
        rw [hlm]
        simpa using asymm hv
      unfold mkCylMV
      rw [hm1, hm2]
      simp [hvf]
  · intro prev world lms conn lmA lmB hp h1 h2 hA hB hvA hvB hlen
    have hlt1 : conn.1 < prev.length := by omega
    have hlt2 : conn.2 < prev.length := by omega
    have hg1 := List.get?_eq_get hlt1
    have hg2 := List.get?_eq_get hlt2
    have hm1 : (mvUpdateSpheres world lms 0 prev).get? conn.1 =
        some (mvSphereAt world lms conn.1 (prev.get ⟨conn.1, hlt1⟩)) := by
      rw [mvUpdateSpheres_get? world lms prev 0 conn.1, hg1]; simp
    have hm2 : (mvUpdateSpheres world lms 0 prev).get? conn.2 =
        some (mvSphereAt world lms conn.2 (prev.get ⟨conn.2, hlt2⟩)) := by
      rw [mvUpdateSpheres_get? world lms prev 0 conn.2, hg2]; simp
    have hvA' : (1 : ℚ)/2 < lmA.visibility := by rw [hvA]; norm_num
    have hvB' : (1 : ℚ)/2 < lmB.visibility := by rw [hvB]; norm_num
    have hdiff : Vec3.sub
        ⟨(mvConvert world lmB).x, (mvConvert world lmB).y + 1,
          (mvConvert world lmB).z⟩
        ⟨(mvConvert world lmA).x, (mvConvert world lmA).y + 1,
          (mvConvert world lmA).z⟩ =
        Vec3.sub (mvConvert world lmB) (mvConvert world lmA) := by
      simp only [Vec3.sub]
      rw [Vec3.mk.injEq]
      refine ⟨by ring, by ring, by ring⟩
    simp only [List.get?_eq_getElem?] at hA hB
    have hsA : mvSphereAt world lms conn.1 (prev.get ⟨conn.1, hlt1⟩) =
        ⟨⟨(mvConvert world lmA).x, (mvConvert world lmA).y + 1,
           (mvConvert world lmA).z⟩, true, lmA.visibility * 120 / 360⟩ := by
      simp only [mvSphereAt, List.get?_eq_getElem?]
      rw [hA]
      simp only [SphereState.mk.injEq, decide_eq_true_eq]
      exact ⟨trivial, hvA', trivial⟩
    have hsB : mvSphereAt world lms conn.2 (prev.get ⟨conn.2, hlt2⟩) =
        ⟨⟨(mvConvert world lmB).x, (mvConvert world lmB).y + 1,
           (mvConvert world lmB).z⟩, true, lmB.visibility * 120 / 360⟩ := by
      simp only [mvSphereAt, List.get?_eq_getElem?]
      rw [hB]
      simp only [SphereState.mk.injEq, decide_eq_true_eq]
      exact ⟨trivial, hvB', trivial⟩
    unfold mkCylMV
    rw [hm1, hm2, hsA, hsB]
    simp only [hdiff]
    simp
    simpa using hlen

/-- A skeleton-renderer state with one bone between joints 11 and 12,
default display toggles, used to exercise the theorems at a concrete
input. -/
def srSampleState : SkeletonState :=
  ⟨List.replicate 33 ⟨⟨0, 0, 0⟩, false⟩,
   [⟨11, 12, ⟨0, 0, 0⟩, 1, ⟨0, 1, 0⟩, true⟩], 1, true, true⟩

/-- An all-zero landmark (confidence 0). -/
def lmZero : Landmark := ⟨0, 0, 0, 0⟩

/-- The screen-centre landmark at confidence 1. -/
def lmHalf : Landmark := ⟨1/2, 1/2, 0, 1⟩

/-- A right-of-centre landmark at confidence 1. -/
def lmRight : Landmark := ⟨1, 1/2, 0, 1⟩

/-- A 33-entry frame of zero-confidence landmarks. -/
def lmsHide : List Landmark := List.replicate 33 lmZero

/-- A 33-entry frame of confidence-1 landmarks, landmark 12 displaced. -/
def lmsShow : List Landmark := (List.replicate 33 lmHalf).set 12 lmRight

/-- A default sphere state of the model viewer. -/
def sphereZero : SphereState := ⟨⟨0, 0, 0⟩, false, 0⟩

/-- Witness for claim C2 at concrete inputs: confidence 0 hides the
(11,12) bone; confidence 1 with distinct endpoints shows it; the model
viewer hides its (0,1) segment at confidence 0 and shows it at
confidence 1 with distinct endpoints. -/
theorem claim_C2_witness :
    (((updatePose srSampleState (some lmsHide)).bones.get? 0).map
        BoneState.visible = some false) ∧
    (((updatePose srSampleState (some lmsShow)).bones.get? 0).map
        BoneState.visible = some true) ∧
    (mkCylMV (mvUpdateSpheres false [lmZero] 0 (List.replicate 33 sphereZero))
        (0, 1) = none) ∧
    ((mkCylMV (mvUpdateSpheres false [lmHalf, lmRight] 0
        (List.replicate 33 sphereZero)) (0, 1)).isSome = true) := by
  refine ⟨?_, ?_, ?_, ?_⟩
  · exact claim_C2.1 srSampleState lmsHide 0
      ⟨11, 12, ⟨0, 0, 0⟩, 1, ⟨0, 1, 0⟩, true⟩ lmZero lmZero
      (by simp [srSampleState]) (by simp [lmsHide]) rfl
      (by simp [lmsHide]) (by simp [lmsHide])
      (Or.inl (by norm_num [lmZero, srThreshold]))
  · exact claim_C2.2.1 srSampleState lmsShow 0
      ⟨11, 12, ⟨0, 0, 0⟩, 1, ⟨0, 1, 0⟩, true⟩ lmHalf lmRight
      (by simp [srSampleState]) (by simp [lmsShow]) rfl rfl rfl rfl rfl
      rfl rfl
      (by norm_num [Vec3.normSq, Vec3.sub, Vec3.smul, convertLandmark,
        lmHalf, lmRight, srSampleState])
  · exact claim_C2.2.2.1 (List.replicate 33 sphereZero) false [lmZero]
      (0, 1) lmZero (by simp) (by norm_num) (by norm_num)
      (Or.inl ⟨rfl, by norm_num [lmZero]⟩)
  · exact claim_C2.2.2.2 (List.replicate 33 sphereZero) false
      [lmHalf, lmRight] (0, 1) lmHalf lmRight (by simp) (by norm_num)
      (by norm_num) rfl rfl rfl rfl
      (by norm_num [Vec3.normSq, Vec3.sub, mvConvert, lmHalf, lmRight])

/-! ### Translation invariance of the skeleton-renderer bone outputs -/

/-- The normalized-space conversion is affine: translating the landmark by
`t` translates the converted point by (2t.x, -2t.y, -2t.z). -/
theorem convertLandmark_translate (t : Vec3) (lm : Landmark) :
    convertLandmark (Landmark.translate t lm) =
      Vec3.add (convertLandmark lm) ⟨2 * t.x, -(2 * t.y), -(2 * t.z)⟩ := by
  simp only [convertLandmark, Landmark.translate, Vec3.add]
  rw [Vec3.mk.injEq]
  refine ⟨by ring, by ring, by ring⟩

/-- A joint update on the uniformly translated frame keeps the visibility
flag, and translates the position by the fixed vector
`scale • (2t.x, -2t.y, -2t.z)` whenever the joint was updated (it is
updated exactly when it ends visible under showJoints = true; a retained
joint is invisible, and invisible joints never feed a visible bone). -/
theorem jointUpdateSR_translate (scale : ℚ) (showJ : Bool)
    (lms : List Landmark) (t : Vec3) (i : Nat) (j : JointState) :
    (jointUpdateSR scale showJ (lms.map (Landmark.translate t)) i j).visible
      = (jointUpdateSR scale showJ lms i j).visible ∧
    ((jointUpdateSR scale showJ lms i j).visible = true →
      (jointUpdateSR scale showJ (lms.map (Landmark.translate t)) i j).pos =
        Vec3.add (jointUpdateSR scale showJ lms i j).pos
          (Vec3.smul scale ⟨2 * t.x, -(2 * t.y), -(2 * t.z)⟩)) := by
  unfold jointUpdateSR
  rw [List.get?_map]
  cases hlm : lms.get? i with
  | none => exact ⟨rfl, by intro h; exact absurd h (by simp)⟩
  | some lm =>
      simp only [Option.map_some']
      have hvis : (Landmark.translate t lm).visibility = lm.visibility := rfl
      by_cases hth : srThreshold < lm.visibility
      · rw [if_pos hth, if_pos (hvis ▸ hth)]
        refine ⟨rfl, fun _ => ?_⟩
        rw [convertLandmark_translate]
        simp only [Vec3.smul, Vec3.add]
        rw [Vec3.mk.injEq]
        refine ⟨by ring, by ring, by ring⟩
      · rw [if_neg hth, if_neg (hvis ▸ hth)]
        exact ⟨rfl, by intro h; exact absurd h (by simp)⟩

/-- Translating every landmark of a frame by one fixed vector changes no
bone visibility flag, no bone direction delta (hence no orientation), and
no bone scale output. -/
theorem updatePose_translate (s : SkeletonState) (lms : List Landmark)
    (t : Vec3) (k : Nat) :
    ((updatePose s (some (lms.map (Landmark.translate t)))).bones.get? k).map
        (fun b => (b.visible, b.delta, b.scaleYSq)) =
      ((updatePose s (some lms)).bones.get? k).map
        (fun b => (b.visible, b.delta, b.scaleYSq)) := by
  by_cases h33 : lms.length = 33
  · have h33' : (lms.map (Landmark.translate t)).length = 33 := by
      simpa using h33
    rw [updatePose_bones_get? _ _ _ h33', updatePose_bones_get? _ _ _ h33]
    cases hb : s.bones.get? k with
    | none => simp
    | some b =>
        simp only [Option.map_some']
        have hJ2S0 := updateJoints_get? s.scale s.showJoints
          (lms.map (Landmark.translate t)) s.joints 0 b.startIdx
        have hJ2E0 := updateJoints_get? s.scale s.showJoints
          (lms.map (Landmark.translate t)) s.joints 0 b.endIdx
        have hJ1S0 := updateJoints_get? s.scale s.showJoints lms s.joints 0
          b.startIdx
        have hJ1E0 := updateJoints_get? s.scale s.showJoints lms s.joints 0
          b.endIdx
        simp only [Nat.zero_add] at hJ2S0 hJ2E0 hJ1S0 hJ1E0
        cases hs0 : s.joints.get? b.startIdx with
        | none =>
            rw [hs0] at hJ2S0 hJ1S0
            simp only [Option.map_none'] at hJ2S0 hJ1S0
            simp only [List.get?_eq_getElem?] at hJ2S0 hJ1S0
            simp [boneUpdateSR, hJ2S0, hJ1S0]
        | some j0 =>
            rw [hs0] at hJ2S0 hJ1S0
            simp only [Option.map_some'] at hJ2S0 hJ1S0
            simp only [List.get?_eq_getElem?] at hJ2S0 hJ1S0
            cases he0 : s.joints.get? b.endIdx with
            | none =>
                rw [he0] at hJ2E0 hJ1E0
                simp only [Option.map_none'] at hJ2E0 hJ1E0
                simp only [List.get?_eq_getElem?] at hJ2E0 hJ1E0
                simp [boneUpdateSR, hJ2S0, hJ1S0, hJ2E0, hJ1E0]
            | some e0 =>
                rw [he0] at hJ2E0 hJ1E0
                simp only [Option.map_some'] at hJ2E0 hJ1E0
                simp only [List.get?_eq_getElem?] at hJ2E0 hJ1E0
                obtain ⟨hvS, hpS⟩ := jointUpdateSR_translate s.scale
                  s.showJoints lms t b.startIdx j0
                obtain ⟨hvE, hpE⟩ := jointUpdateSR_translate s.scale
                  s.showJoints lms t b.endIdx e0
                by_cases hv : (jointUpdateSR s.scale s.showJoints lms
                    b.startIdx j0).visible = true ∧
                    (jointUpdateSR s.scale s.showJoints lms
                      b.endIdx e0).visible = true
                · have hd : Vec3.sub
                      (jointUpdateSR s.scale s.showJoints
                        (lms.map (Landmark.translate t)) b.endIdx e0).pos
                      (jointUpdateSR s.scale s.showJoints
                        (lms.map (Landmark.translate t)) b.startIdx j0).pos =
                      Vec3.sub
                        (jointUpdateSR s.scale s.showJoints lms
                          b.endIdx e0).pos
                        (jointUpdateSR s.scale s.showJoints lms
                          b.startIdx j0).pos := by
                    rw [hpS hv.1, hpE hv.2]
                    simp only [Vec3.sub, Vec3.add, Vec3.smul]
                    rw [Vec3.mk.injEq]
                    refine ⟨by ring, by ring, by ring⟩
                  by_cases hdeg : 0 < Vec3.normSq (Vec3.sub
                      (jointUpdateSR s.scale s.showJoints lms
                        b.endIdx e0).pos
                      (jointUpdateSR s.scale s.showJoints lms
                        b.startIdx j0).pos)
                  · simp [boneUpdateSR, hJ2S0, hJ1S0, hJ2E0, hJ1E0, hvS,
                      hvE, hv.1, hv.2, hd, hdeg]
                  · simp [boneUpdateSR, hJ2S0, hJ1S0, hJ2E0, hJ1E0, hvS,
                      hvE, hv.1, hv.2, hd, hdeg]
                · have hfalse : ((jointUpdateSR s.scale s.showJoints lms
                      b.startIdx j0).visible &&
                      (jointUpdateSR s.scale s.showJoints lms
                        b.endIdx e0).visible) = false := by
                    cases hA : (jointUpdateSR s.scale s.showJoints lms
                        b.startIdx j0).visible <;>
                      cases hB : (jointUpdateSR s.scale s.showJoints lms
                          b.endIdx e0).visible <;>
                      simp_all
                  simp [boneUpdateSR, hJ2S0, hJ1S0, hJ2E0, hJ1E0, hvS, hvE,
                    hfalse]
  · have h33' : ¬ (lms.map (Landmark.translate t)).length = 33 := by
      simpa using h33
    simp [updatePose, h33, h33']

/-- Claim C6 (confirmed).  Two valid 33-entry frames that differ by one
uniform translation of every point produce identical per-segment
visibility, direction deltas, scale outputs, and hence identical
orientation quaternions (for any length witness `L`). -/
theorem claim_C6 (s : SkeletonState) (lms : List Landmark) (t : Vec3)
    (L : ℚ) (k : Nat) (h33 : lms.length = 33) :
    ((updatePose s (some (lms.map (Landmark.translate t)))).bones.get? k).map
        (fun b => (b.visible, b.delta, b.scaleYSq, quatFromDelta b.delta L)) =
      ((updatePose s (some lms)).bones.get? k).map
        (fun b => (b.visible, b.delta, b.scaleYSq,
          quatFromDelta b.delta L)) := by
  have h := updatePose_translate s lms t k
  cases h1 : (updatePose s (some (lms.map (Landmark.translate t)))).bones.get?
      k with
  | none =>
      rw [h1] at h
      cases h2 : (updatePose s (some lms)).bones.get? k with
      | none => simp
      | some b => rw [h2] at h; simp at h
  | some b =>
      rw [h1] at h
      cases h2 : (updatePose s (some lms)).bones.get? k with
      | none => rw [h2] at h; simp at h
      | some b' =>
          rw [h2] at h
          simp only [Option.map_some', Option.some.injEq, Prod.mk.injEq]
            at h ⊢
          exact ⟨h.1, h.2.1, h.2.2, by rw [h.2.1]⟩

/-- Witness for claim C6 at a concrete input: the full-confidence frame
and its translate by (3, -2, 5) agree on the (11,12) bone's visibility,
delta, scale and orientation. -/
theorem claim_C6_witness :
    ((updatePose srSampleState
        (some (lmsShow.map (Landmark.translate ⟨3, -2, 5⟩)))).bones.get?
          0).map
        (fun b => (b.visible, b.delta, b.scaleYSq, quatFromDelta b.delta 1)) =
      ((updatePose srSampleState (some lmsShow)).bones.get? 0).map
        (fun b => (b.visible, b.delta, b.scaleYSq,
          quatFromDelta b.delta 1)) :=
  claim_C6 srSampleState lmsShow ⟨3, -2, 5⟩ 1 0 (by simp [lmsShow])

/-! ### Scale linearity of the skeleton-renderer bone outputs -/

theorem Vec3.normSq_nonneg (v : Vec3) : 0 ≤ Vec3.normSq v := by
  simp only [Vec3.normSq]
  nlinarith [mul_self_nonneg v.x, mul_self_nonneg v.y, mul_self_nonneg v.z]

theorem vec3NormSq_smul (c : ℚ) (v : Vec3) :
    Vec3.normSq (Vec3.smul c v) = c ^ 2 * Vec3.normSq v := by
  simp only [Vec3.normSq, Vec3.smul]; ring

/-- A joint update with the global scale parameter multiplied by `c` keeps
the visibility flag and multiplies the position by `c` whenever the joint
was updated. -/
theorem jointUpdateSR_scale (σ c : ℚ) (showJ : Bool) (lms : List Landmark)
    (i : Nat) (j : JointState) :
    (jointUpdateSR (c * σ) showJ lms i j).visible =
      (jointUpdateSR σ showJ lms i j).visible ∧
    ((jointUpdateSR σ showJ lms i j).visible = true →
      (jointUpdateSR (c * σ) showJ lms i j).pos =
        Vec3.smul c (jointUpdateSR σ showJ lms i j).pos) := by
  unfold jointUpdateSR
  cases hlm : lms.get? i with
  | none => exact ⟨rfl, by intro h; exact absurd h (by simp)⟩
  | some lm =>
      dsimp only
      by_cases hth : srThreshold < lm.visibility
      · rw [if_pos hth, if_pos hth]
        refine ⟨rfl, fun _ => ?_⟩
        simp only [Vec3.smul]
        rw [Vec3.mk.injEq]
        refine ⟨by ring, by ring, by ring⟩
      · rw [if_neg hth, if_neg hth]
        exact ⟨rfl, by intro h; exact absurd h (by simp)⟩


/-- Claim C5 (amended).  For every visible segment the scale output is
|end − start| / restLength computed from the post-conversion, post-scale
endpoint positions (squared throughout; restLength is 1 in the skeleton
renderer and the hardcoded 0.4 in the character viewer's updateLimb, for
legs as well); the output is invariant to a uniform translation of the
landmark frame (the centering transform), but it is not invariant to the
global scale parameter: multiplying the parameter by c multiplies the
squared scale output of every visible bone by c². -/
theorem claim_C5 :
    (∀ (showB : Bool) (joints : List JointState) (b : BoneState)
        (sj ej : JointState),
      joints.get? b.startIdx = some sj → joints.get? b.endIdx = some ej →
      sj.visible = true → ej.visible = true →
      0 < Vec3.normSq (Vec3.sub ej.pos sj.pos) →
      (boneUpdateSR showB joints b).scaleYSq =
        Vec3.normSq (Vec3.sub ej.pos sj.pos) / (1 * 1) ∧
      (boneUpdateSR showB joints b).delta = Vec3.sub ej.pos sj.pos) ∧
    (∀ (s : SkeletonState) (lms : List Landmark) (c : ℚ) (k : Nat)
        (b : BoneState),
      c ≠ 0 → s.showBones = true → s.joints.length = 33 →
      lms.length = 33 → s.bones.get? k = some b →
      b.startIdx < 33 → b.endIdx < 33 →
      ((updatePose { s with scale := c * s.scale }
          (some lms)).bones.get? k).map (fun x => (x.visible, x.scaleYSq)) =
        ((updatePose s (some lms)).bones.get? k).map
          (fun x => (x.visible,
            if x.visible = true then c ^ 2 * x.scaleYSq else x.scaleYSq))) ∧
    (∀ (s : SkeletonState) (lms : List Landmark) (t : Vec3) (k : Nat),
      ((updatePose s
          (some (lms.map (Landmark.translate t)))).bones.get? k).map
            (fun x => (x.visible, x.scaleYSq)) =
        ((updatePose s (some lms)).bones.get? k).map
          (fun x => (x.visible, x.scaleYSq))) ∧
    (∀ (bones : List (String × MeshState)) (name : String)
        (si mi ei : Nat) (getP : Nat → Vec3),
      (getBone bones (name ++ "Upper")).isSome = true →
      (getBone bones (name ++ "Lower")).isSome = true →
      (getBone (updateLimbCV bones name si mi ei getP)
          (name ++ "Upper")).map MeshState.scaleYSq =
        some (Vec3.normSq (Vec3.sub (getP mi) (getP si)) /
          ((2/5) * (2/5))) ∧
      (getBone (updateLimbCV bones name si mi ei getP)
          (name ++ "Lower")).map MeshState.scaleYSq =
        some (Vec3.normSq (Vec3.sub (getP ei) (getP mi)) /
          ((2/5) * (2/5)))) := by
  refine ⟨?_, ?_, ?_, ?_⟩
  · intro showB joints b sj ej hS hE hsv hev hpos
    simp only [List.get?_eq_getElem?] at hS hE
    constructor
    · simp [boneUpdateSR, hS, hE, hsv, hev, hpos]
    · simp [boneUpdateSR, hS, hE, hsv, hev, hpos]
  · intro s lms c k b hc hsb hJ hL hb hs33 he33
    have hc2 : (0 : ℚ) < c ^ 2 := by positivity
    rw [updatePose_bones_get? _ lms k hL, updatePose_bones_get? s lms k hL]
    rw [hb]
    dsimp only
    simp only [Option.map_some']
    obtain ⟨j0, hj0, hJ1S⟩ := sr_joint_lookup s lms b.startIdx hJ hs33
    obtain ⟨e0, he0, hJ1E⟩ := sr_joint_lookup s lms b.endIdx hJ he33
    have hJ2S : (updateJoints (c * s.scale) s.showJoints lms 0
        s.joints).get? b.startIdx =
        some (jointUpdateSR (c * s.scale) s.showJoints lms b.startIdx
          j0) := by
      rw [updateJoints_get? (c * s.scale) s.showJoints lms s.joints 0
        b.startIdx, hj0]
      simp
    have hJ2E : (updateJoints (c * s.scale) s.showJoints lms 0
        s.joints).get? b.endIdx =
        some (jointUpdateSR (c * s.scale) s.showJoints lms b.endIdx
          e0) := by
      rw [updateJoints_get? (c * s.scale) s.showJoints lms s.joints 0
        b.endIdx, he0]
      simp
    simp only [List.get?_eq_getElem?] at hJ1S hJ1E hJ2S hJ2E
    obtain ⟨hvS, hpS⟩ := jointUpdateSR_scale s.scale c s.showJoints lms
      b.startIdx j0
    obtain ⟨hvE, hpE⟩ := jointUpdateSR_scale s.scale c s.showJoints lms
      b.endIdx e0
    by_cases hv : (jointUpdateSR s.scale s.showJoints lms
        b.startIdx j0).visible = true ∧
        (jointUpdateSR s.scale s.showJoints lms b.endIdx e0).visible = true
    · have hd : Vec3.sub
          (jointUpdateSR (c * s.scale) s.showJoints lms b.endIdx e0).pos
          (jointUpdateSR (c * s.scale) s.showJoints lms b.startIdx j0).pos =
          Vec3.smul c (Vec3.sub
            (jointUpdateSR s.scale s.showJoints lms b.endIdx e0).pos
            (jointUpdateSR s.scale s.showJoints lms b.startIdx j0).pos) := by
        rw [hpS hv.1, hpE hv.2]
        simp only [Vec3.sub, Vec3.smul]
        rw [Vec3.mk.injEq]
        refine ⟨by ring, by ring, by ring⟩
      by_cases hdeg : 0 < Vec3.normSq (Vec3.sub
          (jointUpdateSR s.scale s.showJoints lms b.endIdx e0).pos
          (jointUpdateSR s.scale s.showJoints lms b.startIdx j0).pos)
      · have hdeg2 : 0 < Vec3.normSq (Vec3.sub
            (jointUpdateSR (c * s.scale) s.showJoints lms b.endIdx e0).pos
            (jointUpdateSR (c * s.scale) s.showJoints lms
              b.startIdx j0).pos) := by
          rw [hd, vec3NormSq_smul]
          exact mul_pos hc2 hdeg
        simp [boneUpdateSR, hJ1S, hJ1E, hJ2S, hJ2E, hvS, hvE, hv.1, hv.2,
          hdeg, hdeg2, hd, vec3NormSq_smul, hsb, hc2]
      · have hzero : Vec3.normSq (Vec3.sub
            (jointUpdateSR s.scale s.showJoints lms b.endIdx e0).pos
            (jointUpdateSR s.scale s.showJoints lms
              b.startIdx j0).pos) = 0 := by
          have hge := Vec3.normSq_nonneg (Vec3.sub
            (jointUpdateSR s.scale s.showJoints lms b.endIdx e0).pos
            (jointUpdateSR s.scale s.showJoints lms b.startIdx j0).pos)
          linarith [lt_or_eq_of_le hge]
        have hdeg2 : ¬ 0 < Vec3.normSq (Vec3.sub
            (jointUpdateSR (c * s.scale) s.showJoints lms b.endIdx e0).pos
            (jointUpdateSR (c * s.scale) s.showJoints lms
              b.startIdx j0).pos) := by
          rw [hd, vec3NormSq_smul, hzero]
          simp
        simp [boneUpdateSR, hJ1S, hJ1E, hJ2S, hJ2E, hvS, hvE, hv.1, hv.2,
          hdeg, hdeg2]
    · have hfalse : ((jointUpdateSR s.scale s.showJoints lms
          b.startIdx j0).visible &&
          (jointUpdateSR s.scale s.showJoints lms
            b.endIdx e0).visible) = false := by
        cases hA : (jointUpdateSR s.scale s.showJoints lms
            b.startIdx j0).visible <;>
          cases hB : (jointUpdateSR s.scale s.showJoints lms
              b.endIdx e0).visible <;>
          simp_all
      simp [boneUpdateSR, hJ1S, hJ1E, hJ2S, hJ2E, hvS, hvE, hfalse]
  · intro s lms t k
    have h := updatePose_translate s lms t k
    cases h1 : (updatePose s
        (some (lms.map (Landmark.translate t)))).bones.get? k with
    | none =>
        rw [h1] at h
        cases h2 : (updatePose s (some lms)).bones.get? k with
        | none => simp
        | some b => rw [h2] at h; simp at h
    | some b =>
        rw [h1] at h
        cases h2 : (updatePose s (some lms)).bones.get? k with
        | none => rw [h2] at h; simp at h
        | some b' =>
            rw [h2] at h
            simp only [Option.map_some', Option.some.injEq,
              Prod.mk.injEq] at h ⊢
            exact ⟨h.1, h.2.2⟩
  · intro bones name si mi ei getP hup hlow
    have hUJ : name ++ "Upper" ≠ name ++ "Joint" :=
      append_suffix_ne name (by decide)
    have hUL : name ++ "Upper" ≠ name ++ "Lower" :=
      append_suffix_ne name (by decide)
    have hUE : name ++ "Upper" ≠ name ++ "End" :=
      append_suffix_ne name (by decide)
    have hLJ : name ++ "Lower" ≠ name ++ "Joint" :=
      append_suffix_ne name (by decide)
    have hLU : name ++ "Lower" ≠ name ++ "Upper" :=
      append_suffix_ne name (by decide)
    have hLE : name ++ "Lower" ≠ name ++ "End" :=
      append_suffix_ne name (by decide)
    obtain ⟨mu, hmu⟩ := Option.isSome_iff_exists.mp hup
    obtain ⟨ml, hml⟩ := Option.isSome_iff_exists.mp hlow
    unfold updateLimbCV
    constructor
    · simp [getBone_updateIfPresent, hUJ, hUL, hUE, hmu]
    · simp [getBone_updateIfPresent, hLJ, hLU, hLE, hml]

/-- The sample skeleton state with the global scale parameter set to 2. -/
def srSampleState2 : SkeletonState :=
  ⟨List.replicate 33 ⟨⟨0, 0, 0⟩, false⟩,
   [⟨11, 12, ⟨0, 0, 0⟩, 1, ⟨0, 1, 0⟩, true⟩], 2, true, true⟩

/-- Witness for claim C5's amended theorem at concrete inputs. -/
theorem claim_C5_witness :
    ((boneUpdateSR true [⟨⟨0, 0, 0⟩, true⟩, ⟨⟨1, 0, 0⟩, true⟩]
        ⟨0, 1, ⟨0, 0, 0⟩, 1, ⟨0, 1, 0⟩, true⟩).scaleYSq =
      Vec3.normSq (Vec3.sub ⟨1, 0, 0⟩ ⟨0, 0, 0⟩) / (1 * 1) ∧
     (boneUpdateSR true [⟨⟨0, 0, 0⟩, true⟩, ⟨⟨1, 0, 0⟩, true⟩]
        ⟨0, 1, ⟨0, 0, 0⟩, 1, ⟨0, 1, 0⟩, true⟩).delta =
      Vec3.sub ⟨1, 0, 0⟩ ⟨0, 0, 0⟩) ∧
    (((updatePose { srSampleState with scale := 2 * srSampleState.scale }
        (some lmsShow)).bones.get? 0).map (fun x => (x.visible, x.scaleYSq)) =
      ((updatePose srSampleState (some lmsShow)).bones.get? 0).map
        (fun x => (x.visible,
          if x.visible = true then (2 : ℚ) ^ 2 * x.scaleYSq
          else x.scaleYSq))) ∧
    (((updatePose srSampleState
        (some (lmsShow.map (Landmark.translate ⟨1, 2, 3⟩)))).bones.get?
          0).map (fun x => (x.visible, x.scaleYSq)) =
      ((updatePose srSampleState (some lmsShow)).bones.get? 0).map
        (fun x => (x.visible, x.scaleYSq))) ∧
    ((getBone (updateLimbCV proceduralBones ("leftArm") 11 13 15
        (fun _ => ⟨0, 0, 0⟩)) ("leftArm" ++ "Upper")).map
          MeshState.scaleYSq =
      some (Vec3.normSq (Vec3.sub ⟨0, 0, 0⟩ ⟨0, 0, 0⟩) / ((2/5) * (2/5)))) := by
  refine ⟨?_, ?_, ?_, ?_⟩
  · exact claim_C5.1 true [⟨⟨0, 0, 0⟩, true⟩, ⟨⟨1, 0, 0⟩, true⟩]
      ⟨0, 1, ⟨0, 0, 0⟩, 1, ⟨0, 1, 0⟩, true⟩ ⟨⟨0, 0, 0⟩, true⟩
      ⟨⟨1, 0, 0⟩, true⟩ rfl rfl rfl rfl
      (by norm_num [Vec3.normSq, Vec3.sub])
  · exact claim_C5.2.1 srSampleState lmsShow 2 0
      ⟨11, 12, ⟨0, 0, 0⟩, 1, ⟨0, 1, 0⟩, true⟩ (by norm_num) rfl
      (by simp [srSampleState]) (by simp [lmsShow]) rfl (by norm_num)
      (by norm_num)
  · exact claim_C5.2.2.1 srSampleState lmsShow ⟨1, 2, 3⟩ 0
  · exact (claim_C5.2.2.2 proceduralBones ("leftArm") 11 13 15
      (fun _ => ⟨0, 0, 0⟩) (by decide) (by decide)).1

/-- Counterexample to claim C5 as stated: the same full-confidence frame
run with global scale parameter 1 and 2 yields bone scale outputs 1 and 2
(squares 1 and 4) — the scale output is not invariant to the global scale
parameter. -/
theorem claim_C5_counterexample :
    (((updatePose srSampleState (some lmsShow)).bones.get? 0).map
        (fun x => (x.visible, x.scaleYSq)) = some (true, 1)) ∧
    (((updatePose srSampleState2 (some lmsShow)).bones.get? 0).map
        (fun x => (x.visible, x.scaleYSq)) = some (true, 4)) ∧
    (1 : ℚ) ≠ 4 := by
  refine ⟨?_, ?_, by norm_num⟩
  · norm_num [updatePose, updateJoints, jointUpdateSR, boneUpdateSR,
      srSampleState, lmsShow, lmHalf, lmRight, srThreshold,
      convertLandmark, Vec3.smul, Vec3.sub, Vec3.add, Vec3.normSq,
      Vec3.midpoint, List.replicate]
  · norm_num [updatePose, updateJoints, jointUpdateSR, boneUpdateSR,
      srSampleState2, lmsShow, lmHalf, lmRight, srThreshold,
      convertLandmark, Vec3.smul, Vec3.sub, Vec3.add, Vec3.normSq,
      Vec3.midpoint, List.replicate]

/-- Claim C3 (amended).  With `L` a witness of the segment length
(`L² = |d|²`, `L > 0`, so `d/L` is the normalized direction), the stored
orientation rotates the canonical +Y axis exactly onto the direction
whenever the direction is outside the near-antiparallel guard band
(`direction.y + 1 ≥ Number.EPSILON`), and also at the exact antiparallel
direction (0,-1,0); inside the open guard band the rotation instead lands
exactly on (0,-1,0) (see the counterexample).  A degenerate segment
(zero length) is hidden instead of oriented. -/
theorem claim_C3 :
    (∀ (d : Vec3) (L : ℚ), L * L = Vec3.normSq d → 0 < L →
      numberEpsilon ≤ d.y / L + 1 →
      quatRotate (quatFromDelta d L) yAxis = ⟨d.x / L, d.y / L, d.z / L⟩) ∧
    (∀ (d : Vec3) (L : ℚ), L * L = Vec3.normSq d → 0 < L →
      (⟨d.x / L, d.y / L, d.z / L⟩ : Vec3) = ⟨0, -1, 0⟩ →
      quatRotate (quatFromDelta d L) yAxis = ⟨0, -1, 0⟩) ∧
    (∀ (showB : Bool) (joints : List JointState) (b : BoneState)
        (sj ej : JointState),
      joints.get? b.startIdx = some sj → joints.get? b.endIdx = some ej →
      sj.visible = true → ej.visible = true →
      Vec3.normSq (Vec3.sub ej.pos sj.pos) = 0 →
      (boneUpdateSR showB joints b).visible = false) := by
  refine ⟨?_, ?_, ?_⟩
  · intro d L hL hLpos heps
    have hLne : L ≠ 0 := ne_of_gt hLpos
    have hL2 : L * L = d.x * d.x + d.y * d.y + d.z * d.z := by
      rw [hL]; rfl
    have hepspos : (0 : ℚ) < numberEpsilon := by norm_num [numberEpsilon]
    have hw : d.y / L + 1 ≠ 0 := by nlinarith
    have hwsum : d.y + L ≠ 0 := by
      intro h
      apply hw
      have hdy : d.y = -L := by linarith
      rw [hdy]
      field_simp
    unfold quatFromDelta setFromUnitVectors yAxis
    simp only [Vec3.dot]
    have hrcond : ¬ (0 * (d.x / L) + 1 * (d.y / L) + 0 * (d.z / L) + 1 <
        numberEpsilon) := by
      have harith : 0 * (d.x / L) + 1 * (d.y / L) + 0 * (d.z / L) + 1 =
          d.y / L + 1 := by ring
      rw [harith]
      exact not_lt.mpr heps
    rw [if_neg hrcond]
    have hq : (⟨1 * (d.z / L) - 0 * (d.y / L),
        0 * (d.x / L) - 0 * (d.z / L),
        0 * (d.y / L) - 1 * (d.x / L),
        0 * (d.x / L) + 1 * (d.y / L) + 0 * (d.z / L) + 1⟩ : Quat) =
        ⟨d.z / L, 0, -(d.x / L), d.y / L + 1⟩ := by
      rw [Quat.mk.injEq]
      refine ⟨by ring, by ring, by ring, by ring⟩
    rw [hq]
    have hN : Quat.normSq ⟨d.z / L, 0, -(d.x / L), d.y / L + 1⟩ =
        2 * (d.y / L + 1) := by
      unfold Quat.normSq
      field_simp
      linear_combination (-L) * hL2
    unfold quatRotate quatRotateNum
    rw [hN]
    simp only [Vec3.smul, Vec3.add, Vec3.cross, Vec3.dot, Vec3.normSq]
    rw [Vec3.mk.injEq]
    refine ⟨?_, ?_, ?_⟩
    · field_simp [hwsum]
      ring
    · field_simp [hwsum]
      linear_combination L ^ 2 * hL2
    · field_simp [hwsum]
      ring
  · intro d L hL hLpos hdir
    have hLne : L ≠ 0 := ne_of_gt hLpos
    have hx : d.x / L = 0 := by
      have := congrArg Vec3.x hdir; simpa using this
    have hy : d.y / L = -1 := by
      have := congrArg Vec3.y hdir; simpa using this
    have hz : d.z / L = 0 := by
      have := congrArg Vec3.z hdir; simpa using this
    unfold quatFromDelta setFromUnitVectors yAxis
    simp only [Vec3.dot]
    have hrcond : 0 * (d.x / L) + 1 * (d.y / L) + 0 * (d.z / L) + 1 <
        numberEpsilon := by
      rw [show 0 * (d.x / L) + 1 * (d.y / L) + 0 * (d.z / L) + 1 =
        d.y / L + 1 by ring, hy]
      norm_num [numberEpsilon]
    rw [if_pos hrcond]
    norm_num [quatRotate, quatRotateNum, Quat.normSq, Vec3.smul, Vec3.add,
      Vec3.cross, Vec3.dot, Vec3.normSq, Vec3.mk.injEq]
  · intro showB joints b sj ej hS hE hsv hev hdeg
    simp only [List.get?_eq_getElem?] at hS hE
    simp [boneUpdateSR, hS, hE, hsv, hev, hdeg]

/-- Witness for claim C3's amended theorem at concrete inputs: the +Z
direction is mapped exactly; the exact antiparallel direction is mapped
exactly; a zero-length bone is hidden. -/
theorem claim_C3_witness :
    (quatRotate (quatFromDelta ⟨0, 0, 1⟩ 1) yAxis =
      ⟨(0 : ℚ) / 1, (0 : ℚ) / 1, (1 : ℚ) / 1⟩) ∧
    (quatRotate (quatFromDelta ⟨0, -1, 0⟩ 1) yAxis = ⟨0, -1, 0⟩) ∧
    ((boneUpdateSR true [⟨⟨2, 3, 4⟩, true⟩, ⟨⟨2, 3, 4⟩, true⟩]
        ⟨0, 1, ⟨0, 0, 0⟩, 1, ⟨0, 1, 0⟩, true⟩).visible = false) := by
  refine ⟨?_, ?_, ?_⟩
  · exact claim_C3.1 ⟨0, 0, 1⟩ 1 (by norm_num [Vec3.normSq]) (by norm_num)
      (by norm_num [numberEpsilon])
  · exact claim_C3.2.1 ⟨0, -1, 0⟩ 1 (by norm_num [Vec3.normSq])
      (by norm_num) (by norm_num [Vec3.mk.injEq])
  · exact claim_C3.2.2 true [⟨⟨2, 3, 4⟩, true⟩, ⟨⟨2, 3, 4⟩, true⟩]
      ⟨0, 1, ⟨0, 0, 0⟩, 1, ⟨0, 1, 0⟩, true⟩ ⟨⟨2, 3, 4⟩, true⟩
      ⟨⟨2, 3, 4⟩, true⟩ rfl rfl rfl rfl
      (by norm_num [Vec3.normSq, Vec3.sub])

/-- Counterexample to claim C3 as stated: the rational unit direction
(2t, -(1-t²), 0)/(1+t²) with t = 2⁻²⁷ is non-degenerate and
near-antiparallel (its y-component + 1 is below Number.EPSILON but
nonzero), and there the stored orientation maps the canonical axis to
exactly (0,-1,0), not onto the direction — "exactly onto the normalized
direction vector … including near-antiparallel cases" fails. -/
theorem claim_C3_counterexample :
    ((1 + (1/2^27 : ℚ)^2) * (1 + (1/2^27 : ℚ)^2) =
      Vec3.normSq ⟨2 * (1/2^27), -(1 - (1/2^27 : ℚ)^2), 0⟩) ∧
    (0 < 1 + (1/2^27 : ℚ)^2) ∧
    quatRotate (quatFromDelta ⟨2 * (1/2^27), -(1 - (1/2^27 : ℚ)^2), 0⟩
        (1 + (1/2^27)^2)) yAxis ≠
      ⟨2 * (1/2^27) / (1 + (1/2^27 : ℚ)^2),
       -(1 - (1/2^27 : ℚ)^2) / (1 + (1/2^27)^2),
       0 / (1 + (1/2^27 : ℚ)^2)⟩ := by
  refine ⟨by norm_num [Vec3.normSq], by norm_num, ?_⟩
  norm_num [quatFromDelta, setFromUnitVectors, quatRotate, quatRotateNum,
    Quat.normSq, numberEpsilon, yAxis, Vec3.smul, Vec3.add, Vec3.cross,
    Vec3.dot, Vec3.normSq, Vec3.mk.injEq]

end GraphicsFinal
